import Mathlib

/-!
# arduino-video-player: the serial button channel

A shallow embedding of `src/utils/arduino.js` (class `ArduinoManager`): the
event filter (`handleIncomingData`, `isSpamming`, `addToHistory`,
`validateButton`, `resetStats`), the connection supervisor
(`connectToPort`, `connect`, `handleDisconnect`, `scheduleReconnect`,
`closePort`, `close`, `reconnect`) and `findPort`; and of
`src/utils/deviceManager.js` (class `DeviceManager`): `scanDevices`,
`getDeviceDescription`, `isLikelyArduino`, `selectDevice`, `autoSelectDevice`.

Conventions of the embedding.

* JavaScript objects used as maps (`lastButtonTime`, `buttonPressHistory`,
  `stats.pressesPerButton`) are association lists keyed by the label.
* `Date.now()` is an argument `now : Int` of the method that reads it.
* Numbers are unbounded integers (counters never get near 2^53).
* What the manager hands to its host is a list of `Out` values, in program
  order: a call of `sendStatus`, a call of `sendData`, a call of `emit`.
  The two senders forward their argument to `webContents.send` when the web
  contents exist and are not destroyed; the list records the call itself.
  Console logging is not recorded.
* An `async` method runs to completion before the next event is processed;
  what the operating system answers (open succeeded or failed, which port
  `findPort` found) is an argument of the method.
-/

namespace ArduinoPlayer

/-! ## JavaScript objects as maps -/

/-- A JavaScript object used as a string-keyed map. -/
abbrev Dict (α : Type) := List (String × α)

/-- Property read `obj[k]`: `none` stands for `undefined`. -/
def Dict.get? {α : Type} : Dict α → String → Option α
  | [], _ => none
  | (k', v) :: rest, k => if k' = k then some v else Dict.get? rest k

/-- Property write `obj[k] = v`. -/
def Dict.set {α : Type} : Dict α → String → α → Dict α
  | [], k, v => [(k, v)]
  | (k', v') :: rest, k, v =>
    if k' = k then (k, v) :: rest else (k', v') :: Dict.set rest k v

/-- The list `Object.values(obj)` (up to order). -/
def Dict.values {α : Type} (d : Dict α) : List α := d.map Prod.snd

/-- The JavaScript expression `x || 0` for a numeric property that may be
`undefined`. -/
def orZero : Option Int → Int
  | none => 0
  | some v => if v = 0 then 0 else v

/-- The JavaScript expression `x || 0` for a counter that may be
`undefined`. -/
def orZeroNat : Option Nat → Nat
  | none => 0
  | some v => if v = 0 then 0 else v

/-- The JavaScript expression `x || d` for a configured number `x`
(`0` is the only falsy integer). -/
def orDefault (x d : Int) : Int := if x = 0 then d else x

/-! ## Strings -/

/-- White space and line terminators removed by `String.prototype.trim`. -/
def isJsWhitespace (c : Char) : Bool :=
  let n := c.toNat
  n == 0x09 || n == 0x0A || n == 0x0B || n == 0x0C || n == 0x0D || n == 0x20 ||
  n == 0xA0 || n == 0x1680 || (0x2000 ≤ n && n ≤ 0x200A) || n == 0x2028 ||
  n == 0x2029 || n == 0x202F || n == 0x205F || n == 0x3000 || n == 0xFEFF

/-- The method `String.prototype.trim`. -/
def jsTrim (s : String) : String :=
  String.mk ((s.data.dropWhile isJsWhitespace).reverse.dropWhile isJsWhitespace).reverse

/-- The method `validateButton`: `typeof button === 'string'` holds for every
value of the embedding, and the regular expression `/^[1-5]$/` matches the
strings of exactly one character from `1` to `5`. -/
def validateButton (button : String) : Bool :=
  match button.data with
  | [c] => 0x31 ≤ c.toNat && c.toNat ≤ 0x35
  | _ => false

/-! ## State -/

/-- What the manager hands to its host. -/
inductive Out where
  /-- A call `this.sendStatus(text)` (channel `arduino-status`). -/
  | status (text : String)
  /-- A call `this.sendData(button)` (channel `arduino-data`). -/
  | data (button : String)
  /-- A call `this.emit(event)` or `this.emit(event, arg)`. -/
  | emit (event : String) (arg : Option String)
  deriving DecidableEq, Repr

/-- The object `this.stats`. -/
structure Stats where
  totalPresses : Nat
  blockedPresses : Nat
  pressesPerButton : Dict Nat
  lastReset : Int
  deriving DecidableEq, Repr

/-- The serial port object held in `this.port`. -/
structure Port where
  path : String
  /-- The getter `port.isOpen`. -/
  isOpen : Bool
  /-- Whether `setupPortHandlers` has installed the handlers of
  `open`, `error` and `close` on this port. -/
  wired : Bool
  deriving DecidableEq, Repr

/-- The object returned by `setTimeout`: the callback is still due
(`pending`), or it has run or was cleared (`spent`). -/
inductive Timer where
  | pending
  | spent
  deriving DecidableEq, Repr

/-- The part of `config.arduino` read by the manager. -/
structure Config where
  maxReconnectAttempts : Int
  buttonDebounceMs : Int
  maxPressesPerSecond : Int
  deriving DecidableEq, Repr

/-- The fields of an `ArduinoManager`. -/
structure ArduinoManager where
  port : Option Port
  reconnectAttempts : Int
  maxAttempts : Int
  /-- The field `this.reconnectTimer`: `none` is `null`. -/
  reconnectTimer : Option Timer
  isConnecting : Bool
  isClosing : Bool
  buttonDebounceMs : Int
  lastButtonTime : Dict Int
  buttonPressHistory : Dict (List Int)
  maxPressesPerSecond : Int
  stats : Stats
  /-- Names of the events of the manager that have a listener. -/
  listeners : List String
  deriving DecidableEq, Repr

/-- The constructor of `ArduinoManager`, run at time `now`. -/
def ArduinoManager.constructor (cfg : Config) (now : Int) : ArduinoManager :=
  { port := none
    reconnectAttempts := 0
    maxAttempts := cfg.maxReconnectAttempts
    reconnectTimer := none
    isConnecting := false
    isClosing := false
    buttonDebounceMs := orDefault cfg.buttonDebounceMs 200
    lastButtonTime := []
    buttonPressHistory := []
    maxPressesPerSecond := orDefault cfg.maxPressesPerSecond 10
    stats := { totalPresses := 0, blockedPresses := 0, pressesPerButton := [], lastReset := now }
    listeners := [] }

/-- The configuration shipped in `src/config.js`. -/
def shippedConfig : Config :=
  { maxReconnectAttempts := 5, buttonDebounceMs := 200, maxPressesPerSecond := 10 }

/-! ## Event filter -/

/-- The statement `this.stats.blockedPresses++`. -/
def countBlocked (s : ArduinoManager) : ArduinoManager :=
  { s with stats := { s.stats with blockedPresses := s.stats.blockedPresses + 1 } }

/-- The method `isSpamming`: creates the history of the label when absent,
shifts out the front entries older than one second, and compares the length
with the threshold. The trimmed history is stored back. -/
def isSpamming (s : ArduinoManager) (button : String) (now : Int) : ArduinoManager × Bool :=
  let history := (s.buttonPressHistory.get? button).getD []
  let trimmed := history.dropWhile (fun t => decide (now - t > 1000))
  ({ s with buttonPressHistory := s.buttonPressHistory.set button trimmed },
   decide ((trimmed.length : Int) ≥ s.maxPressesPerSecond))

/-- The method `addToHistory`: push, then drop the oldest entry when the list
has more than 100 entries. -/
def addToHistory (s : ArduinoManager) (button : String) (timestamp : Int) : ArduinoManager :=
  let history := (s.buttonPressHistory.get? button).getD []
  let pushed := history ++ [timestamp]
  let capped := if pushed.length > 100 then pushed.drop 1 else pushed
  { s with buttonPressHistory := s.buttonPressHistory.set button capped }

/-- The text of the spam warning. -/
def spamStatus (button : String) : String :=
  "⚠️ Спам кнопки " ++ button ++ " - проверьте контакты"

/-- The method `handleIncomingData`, run at time `now`. -/
def handleIncomingData (s : ArduinoManager) (data : String) (now : Int) :
    ArduinoManager × List Out :=
  let button := jsTrim data
  if !validateButton button then
    (countBlocked s, [])
  else
    let lastTime := orZero (s.lastButtonTime.get? button)
    if now - lastTime < s.buttonDebounceMs then
      (countBlocked s, [])
    else
      let r := isSpamming s button now
      if r.2 then
        (countBlocked r.1, [Out.status (spamStatus button)])
      else
        let s1 := { r.1 with lastButtonTime := r.1.lastButtonTime.set button now }
        let s2 := addToHistory s1 button now
        let s3 := { s2 with stats := { s2.stats with
          totalPresses := s2.stats.totalPresses + 1
          pressesPerButton := s2.stats.pressesPerButton.set button
            (orZeroNat (s2.stats.pressesPerButton.get? button) + 1) } }
        (s3, [Out.data button, Out.emit "button-pressed" (some button)])

/-- The method `resetStats`, run at time `now`. -/
def resetStats (s : ArduinoManager) (now : Int) : ArduinoManager :=
  { s with stats := { totalPresses := 0, blockedPresses := 0, pressesPerButton := [], lastReset := now } }

/-- Two lines fed one after the other, at times `t1` and `t2`: the final state
and everything handed to the host. -/
def feedTwo (s : ArduinoManager) (d1 : String) (t1 : Int) (d2 : String) (t2 : Int) :
    ArduinoManager × List Out :=
  let r1 := handleIncomingData s d1 t1
  let r2 := handleIncomingData r1.1 d2 t2
  (r2.1, r1.2 ++ r2.2)

/-- The `button-pressed` events in a list of outputs. -/
def buttonEvents (outs : List Out) : List Out :=
  outs.filter (fun o => match o with
    | Out.emit "button-pressed" _ => true
    | _ => false)

/-- The `arduino-data` messages in a list of outputs. -/
def dataMessages (outs : List Out) : List Out :=
  outs.filter (fun o => match o with
    | Out.data _ => true
    | _ => false)

/-- The `arduino-status` messages in a list of outputs. -/
def statusMessages (outs : List Out) : List Out :=
  outs.filter (fun o => match o with
    | Out.status _ => true
    | _ => false)

/-- A filter as the constructor leaves it: no label was ever accepted, no
history, counters at zero. -/
def IsFreshFilter (s : ArduinoManager) : Prop :=
  s.lastButtonTime = [] ∧ s.buttonPressHistory = [] ∧ s.stats.totalPresses = 0 ∧
  s.stats.blockedPresses = 0 ∧ s.stats.pressesPerButton = []

instance (s : ArduinoManager) : Decidable (IsFreshFilter s) := by
  unfold IsFreshFilter; infer_instance

/-- The five labels of the protocol. -/
def validLabels : List String := ["1", "2", "3", "4", "5"]

/-- One call on the filter: a line arriving at a time, or a statistics reset. -/
inductive FilterOp where
  | line (data : String) (now : Int)
  | reset (now : Int)
  deriving DecidableEq, Repr

/-- The filter state after one call. -/
def FilterOp.apply (s : ArduinoManager) : FilterOp → ArduinoManager
  | FilterOp.line data now => (handleIncomingData s data now).1
  | FilterOp.reset now => resetStats s now

/-- The filter state after a sequence of calls, oldest first. -/
def runFilter (s : ArduinoManager) (ops : List FilterOp) : ArduinoManager :=
  ops.foldl FilterOp.apply s

/-- The instant used in the concrete scenarios (a `Date.now()` of late 2023). -/
def sampleNow : Int := 1700000000000

/-! ## Connection supervisor

The serial library is outside the repository. What the supervisor relies on:
`port.open(cb)` reports success or an error to its callback; `port.close(cb)`
on an open port ends with the port closed and delivers the `close`
notification to the handlers of that port before `cb` runs; a port on which
`setupPortHandlers` ran forwards `open`, `error` and `close` to the handlers
below. -/

/-- What `new SerialPort(..)` followed by `openPort()` does, as the serial
library reports it. -/
inductive OpenOutcome where
  /-- The constructor `new SerialPort` throws. -/
  | constructFails (message : String)
  /-- The callback of `port.open` receives an error. -/
  | openFails (message : String)
  /-- The port opens. -/
  | opened
  deriving DecidableEq, Repr

/-- The status text of a reconnect attempt. -/
def reconnectingStatus (attempts maxAttempts : Int) : String :=
  "Переподключение (" ++ toString attempts ++ "/" ++ toString maxAttempts ++ ")..."

/-- The status text of the exhausted state. -/
def exhaustedStatus : String := "Отключена (достигнуто макс. попыток)"

/-- The status text of an error with the given message. -/
def errorStatus (message : String) : String := "Ошибка: " ++ message

/-- The method `scheduleReconnect`: a timer held in the field is cleared, and
the field then holds a new timer that is due. -/
def scheduleReconnect (s : ArduinoManager) : ArduinoManager :=
  { s with reconnectTimer := some Timer.pending }

/-- The method `handleDisconnect`. -/
def handleDisconnect (s : ArduinoManager) : ArduinoManager × List Out :=
  if s.isClosing then
    (s, [])
  else if s.reconnectAttempts < s.maxAttempts then
    let s1 := { s with reconnectAttempts := s.reconnectAttempts + 1 }
    (scheduleReconnect s1,
      [Out.emit "disconnected" none,
       Out.status (reconnectingStatus s1.reconnectAttempts s1.maxAttempts)])
  else
    (s, [Out.emit "disconnected" none, Out.status exhaustedStatus,
         Out.emit "max-reconnect-reached" none])

/-- The handler of `open` installed by `setupPortHandlers(parser, portPath)`. -/
def onPortOpen (s : ArduinoManager) (portPath : String) : ArduinoManager × List Out :=
  ({ s with reconnectAttempts := 0 },
    [Out.status ("Подключена: " ++ portPath), Out.emit "connected" (some portPath)])

/-- The handler of `error` installed by `setupPortHandlers`. -/
def onPortError (s : ArduinoManager) (message : String) : ArduinoManager × List Out :=
  let r := handleDisconnect s
  (r.1, Out.status (errorStatus message) :: r.2)

/-- The handler of `close` installed by `setupPortHandlers`. -/
def onPortClose (s : ArduinoManager) : ArduinoManager × List Out :=
  handleDisconnect s

/-- The port held in `this.port` is no longer open. -/
def markClosed (s : ArduinoManager) : ArduinoManager :=
  { s with port := s.port.map (fun p => { p with isOpen := false }) }

/-- The expression `this.port?.isOpen` as a condition. -/
def portIsOpen (s : ArduinoManager) : Bool :=
  match s.port with
  | some p => p.isOpen
  | none => false

/-- The method `closePort`: nothing to do without an open port; otherwise the
port is closed, and its `close` notification reaches `onPortClose` when the
handlers were installed on it. -/
def closePort (s : ArduinoManager) : ArduinoManager × List Out :=
  match s.port with
  | none => (s, [])
  | some p =>
    if !p.isOpen then (s, [])
    else if p.wired then onPortClose (markClosed s)
    else (markClosed s, [])

/-- The method `connectToPort`: the final state, the returned boolean and the
outputs. The guard returns before the `try` block; past the guard the
`finally` clause clears `isConnecting` on every path. -/
def connectToPort (s : ArduinoManager) (portPath : String) (outcome : OpenOutcome) :
    ArduinoManager × Bool × List Out :=
  if s.isConnecting || s.isClosing then
    (s, false, [])
  else
    let s1 := { s with isConnecting := true }
    let c := if portIsOpen s1 then closePort s1 else (s1, [])
    match outcome with
    | OpenOutcome.constructFails message =>
      ({ c.1 with isConnecting := false }, false, c.2 ++ [Out.status (errorStatus message)])
    | OpenOutcome.openFails message =>
      ({ c.1 with
          port := some { path := portPath, isOpen := false, wired := false }
          isConnecting := false },
        false, c.2 ++ [Out.status (errorStatus message)])
    | OpenOutcome.opened =>
      ({ c.1 with
          port := some { path := portPath, isOpen := true, wired := true }
          isConnecting := false },
        true, c.2)

/-- The method `connect`; `found` is what `await this.findPort()` returned
(`none` for `null`), and the empty path is falsy like `null`. -/
def connect (s : ArduinoManager) (found : Option String) (outcome : OpenOutcome) :
    ArduinoManager × List Out :=
  match found with
  | none => (scheduleReconnect s, [Out.status "Не найдена"])
  | some portPath =>
    if portPath = "" then (scheduleReconnect s, [Out.status "Не найдена"])
    else
      let r := connectToPort s portPath outcome
      (r.1, r.2.2)

/-- The method `reconnect`. -/
def reconnect (s : ArduinoManager) (found : Option String) (outcome : OpenOutcome) :
    ArduinoManager × List Out :=
  connect { s with reconnectAttempts := 0 } found outcome

/-- The method `close`. -/
def close (s : ArduinoManager) : ArduinoManager × List Out :=
  let s1 := { s with isClosing := true }
  let s2 := if s1.reconnectTimer.isSome then { s1 with reconnectTimer := none } else s1
  let c := closePort s2
  ({ c.1 with listeners := [] }, c.2)

/-- The method `isConnected`. -/
def isConnected (s : ArduinoManager) : Bool := portIsOpen s

/-- The callback given to `setTimeout` by `scheduleReconnect` runs: only a
timer that is due can fire, and the field keeps the spent timer. -/
def timerFires (s : ArduinoManager) (found : Option String) (outcome : OpenOutcome) :
    ArduinoManager × List Out :=
  match s.reconnectTimer with
  | some Timer.pending => connect { s with reconnectTimer := some Timer.spent } found outcome
  | _ => (s, [])

/-- Whether a reconnect timer is due. -/
def timerPending (s : ArduinoManager) : Bool :=
  s.reconnectTimer == some Timer.pending

/-- Everything that can happen to a manager: calls of its host, the timer,
notifications of a port, lines of the parser. -/
inductive Event where
  | connectToPort (portPath : String) (outcome : OpenOutcome)
  | connect (found : Option String) (outcome : OpenOutcome)
  | reconnect (found : Option String) (outcome : OpenOutcome)
  | close
  | timer (found : Option String) (outcome : OpenOutcome)
  /-- The `open` notification of a port wired for `portPath`. -/
  | portOpen (portPath : String)
  /-- An `error` notification of a wired port. -/
  | portError (message : String)
  /-- A `close` notification of a wired port: of the port held in
  `this.port` (which is then no longer open) when `current`, of an earlier
  port otherwise. -/
  | portClose (current : Bool)
  | data (line : String) (now : Int)
  | resetStats (now : Int)
  deriving DecidableEq, Repr

/-- The manager after one event, and its outputs. -/
def applyEvent (s : ArduinoManager) : Event → ArduinoManager × List Out
  | Event.connectToPort portPath outcome =>
    let r := connectToPort s portPath outcome
    (r.1, r.2.2)
  | Event.connect found outcome => connect s found outcome
  | Event.reconnect found outcome => reconnect s found outcome
  | Event.close => close s
  | Event.timer found outcome => timerFires s found outcome
  | Event.portOpen portPath => onPortOpen s portPath
  | Event.portError message => onPortError s message
  | Event.portClose current => onPortClose (if current then markClosed s else s)
  | Event.data line now => handleIncomingData s line now
  | Event.resetStats now => (resetStats s now, [])

/-- The manager after a sequence of events, oldest first, and all outputs. -/
def run (s : ArduinoManager) : List Event → ArduinoManager × List Out
  | [] => (s, [])
  | e :: rest =>
    let r := applyEvent s e
    let r2 := run r.1 rest
    (r2.1, r.2 ++ r2.2)

/-- A manager built with the shipped configuration whose port `COM3` was
opened by `connectToPort`. -/
def connectedManager : ArduinoManager :=
  (connectToPort (ArduinoManager.constructor shippedConfig sampleNow) "COM3"
    OpenOutcome.opened).1

/-- The connected manager after its connection was lost: the `close`
notification of the port it holds. -/
def lostManager : ArduinoManager :=
  (applyEvent connectedManager (Event.portClose true)).1

/-- The reconnect timer fires `n` times and `findPort` finds no port each
time. -/
def notFoundAttempts (n : Nat) : List Event :=
  List.replicate n (Event.timer none OpenOutcome.opened)

/-- The connection is lost and the reconnect timer then fires, `findPort`
finds `COM3` and the port opens. -/
def lossAndReopen : List Event :=
  [Event.portClose true, Event.timer (some "COM3") OpenOutcome.opened]

/-- The list `buttonPressHistory[label]`, empty when the label has none. -/
def historyOf (s : ArduinoManager) (label : String) : List Int :=
  (s.buttonPressHistory.get? label).getD []

/-- The arrival times of the lines in a sequence of calls, oldest first. -/
def lineTimes : List FilterOp → List Int
  | [] => []
  | FilterOp.line _ now :: rest => now :: lineTimes rest
  | FilterOp.reset _ :: rest => lineTimes rest

/-- The same line fed at each of the given times, oldest first. -/
def feedLines (s : ArduinoManager) (data : String) (times : List Int) :
    ArduinoManager × List Out :=
  run s (times.map (fun t => Event.data data t))

/-- The history of a label once `isSpamming` has shifted out the entries more
than 1000 ms older than `now`. -/
def trimmedHistory (s : ArduinoManager) (label : String) (now : Int) : List Int :=
  (historyOf s label).dropWhile (fun t => decide (now - t > 1000))

/-- The cap of `addToHistory`: the oldest entry goes when there are more than
100. -/
def capHistory (l : List Int) : List Int :=
  if l.length > 100 then l.drop 1 else l

/-- A history list within the window and the capacity: no entry is later than
`bound`, the entries are in arrival order, there are at most 100, and any two
are at most 1000 ms apart. -/
def HistoryOk (bound : Int) (l : List Int) : Prop :=
  (∀ h ∈ l, h ≤ bound) ∧ l.Pairwise (fun a b => a ≤ b) ∧ l.length ≤ 100 ∧
    ∀ h ∈ l, ∀ h' ∈ l, h' - h ≤ 1000

/-- A sequence of calls chosen for the concrete scenarios: label `1` three
times, a statistics reset, and label `1` again. -/
def sampleOps : List FilterOp :=
  [FilterOp.line "1" sampleNow, FilterOp.line "1\r" (sampleNow + 300),
   FilterOp.line "1" (sampleNow + 1500), FilterOp.reset (sampleNow + 1600),
   FilterOp.line "1" (sampleNow + 1700)]

/-- The call of a `FilterOp` as an event of the manager. -/
def FilterOp.toEvent : FilterOp → Event
  | FilterOp.line data now => Event.data data now
  | FilterOp.reset now => Event.resetStats now

/-- A history list whose entries are at least `gap` apart, in arrival order,
and none later than `last`. -/
def SeparatedUpTo (gap last : Int) (l : List Int) : Prop :=
  l.Pairwise (fun a b => a + gap ≤ b) ∧ ∀ h ∈ l, h ≤ last

/-- Twelve arrival times 40 ms apart, starting at `sampleNow`: a burst within
one 500 ms span. -/
def burstTimes : List Int :=
  (List.range 12).map (fun i => sampleNow + 40 * (i : Int))

/-- The shipped configuration with the debounce interval set to 1 ms. -/
def fastConfig : Config :=
  { maxReconnectAttempts := 5, buttonDebounceMs := 1, maxPressesPerSecond := 10 }

/-! ## Device enumerator (`src/utils/deviceManager.js`) and `findPort`

`String.prototype.toLowerCase` is a built-in of the language: the functions
that call it take it as the argument `toLowerCase`. The concrete scenarios use
`asciiLowerCase`, which agrees with it on strings of ASCII characters. -/

/-- An entry of the list returned by `SerialPort.list()`; `none` stands for
`undefined`. -/
structure PortInfo where
  path : String
  manufacturer : Option String
  vendorId : Option String
  productId : Option String
  serialNumber : Option String
  deriving DecidableEq, Repr

/-- Whether an optional string is truthy: defined and not empty. -/
def truthy : Option String → Bool
  | some v => v != ""
  | none => false

/-- The JavaScript expression `x || d` for an optional string. -/
def orString (x : Option String) (d : String) : String :=
  match x with
  | some v => if v = "" then d else v
  | none => d

/-- The method `String.prototype.includes`. -/
def jsIncludes (text keyword : String) : Bool :=
  text.data.tails.any (fun t => keyword.data.isPrefixOf t)

/-- Lower-casing of the ASCII letters. -/
def asciiLowerCase (text : String) : String :=
  String.mk (text.data.map Char.toLower)

/-- The method `Array.prototype.includes` on a list of strings, for a value
that may be `undefined`. -/
def includesId (ids : List String) (id : Option String) : Bool :=
  match id with
  | some v => ids.contains v
  | none => false

/-- The descriptor built by `scanDevices` for one port. -/
structure Device where
  path : String
  manufacturer : String
  vendorId : String
  productId : String
  serialNumber : String
  description : String
  isArduino : Bool
  deriving DecidableEq, Repr

/-- The fields of a `DeviceManager`. -/
structure DeviceManager where
  availableDevices : List Device
  selectedDevice : Option Device
  deriving DecidableEq, Repr

/-- What a `DeviceManager` emits. -/
inductive DeviceEvent where
  /-- The call `this.emit('device-selected', device)`. -/
  | deviceSelected (device : Device)
  /-- The call `this.emit('save-preference', devicePath)`. -/
  | savePreference (devicePath : String)
  deriving DecidableEq, Repr

/-- The constructor of `DeviceManager`. -/
def DeviceManager.constructor : DeviceManager :=
  { availableDevices := [], selectedDevice := none }

/-- The method `getDeviceDescription`. -/
def getDeviceDescription (port : PortInfo) : String :=
  let parts0 : List String := []
  let parts1 := if truthy port.manufacturer then parts0 ++ [port.manufacturer.getD ""] else parts0
  let parts2 :=
    if truthy port.vendorId && truthy port.productId then
      parts1 ++ ["VID:" ++ port.vendorId.getD "" ++ " PID:" ++ port.productId.getD ""]
    else parts1
  let parts3 :=
    if truthy port.serialNumber then parts2 ++ ["S/N:" ++ port.serialNumber.getD ""] else parts2
  if parts3.length > 0 then String.intercalate " | " parts3 else port.path

/-- The list `arduinoVendorIds` of `isLikelyArduino`. -/
def arduinoVendorIds : List String := ["2341", "1a86", "0403", "2a03", "10c4", "0403"]

/-- The list `arduinoKeywords` of `isLikelyArduino`. -/
def arduinoKeywords : List String := ["arduino", "usbserial", "usbmodem", "ch340", "cp210"]

/-- The method `isLikelyArduino`. -/
def isLikelyArduino (toLowerCase : String → String) (port : PortInfo) : Bool :=
  if includesId arduinoVendorIds port.vendorId then true
  else
    let manufLow := toLowerCase (orString port.manufacturer "")
    let pathLow := toLowerCase port.path
    arduinoKeywords.any (fun keyword => jsIncludes manufLow keyword || jsIncludes pathLow keyword)

/-- The descriptor that `scanDevices` maps a port to. -/
def describePort (toLowerCase : String → String) (port : PortInfo) : Device :=
  { path := port.path
    manufacturer := orString port.manufacturer "Unknown"
    vendorId := orString port.vendorId "N/A"
    productId := orString port.productId "N/A"
    serialNumber := orString port.serialNumber "N/A"
    description := getDeviceDescription port
    isArduino := isLikelyArduino toLowerCase port }

/-- The method `scanDevices`; `listing` is what `SerialPort.list()` answered,
`none` when it failed: then the empty list is returned and the stored list is
kept. -/
def scanDevices (toLowerCase : String → String) (dm : DeviceManager)
    (listing : Option (List PortInfo)) : DeviceManager × List Device :=
  match listing with
  | some ports =>
    let devices := ports.map (describePort toLowerCase)
    ({ dm with availableDevices := devices }, devices)
  | none => (dm, [])

/-- The method `selectDevice`. -/
def selectDevice (dm : DeviceManager) (devicePath : String) :
    DeviceManager × Bool × List DeviceEvent :=
  match dm.availableDevices.find? (fun d => d.path == devicePath) with
  | some device =>
    ({ dm with selectedDevice := some device }, true, [DeviceEvent.deviceSelected device])
  | none => (dm, false, [])

/-- The method `autoSelectDevice`: the manager afterwards, the returned device
(`none` for `null`) and what was emitted. -/
def autoSelectDevice (dm : DeviceManager) : DeviceManager × Option Device × List DeviceEvent :=
  let arduinoDevices := dm.availableDevices.filter (fun d => d.isArduino)
  match arduinoDevices with
  | first :: _ =>
    let r := selectDevice dm first.path
    (r.1, some first, r.2.2)
  | [] =>
    match dm.availableDevices with
    | first :: _ =>
      let r := selectDevice dm first.path
      (r.1, some first, r.2.2)
    | [] => (dm, none, [])

/-- The lists `config.arduino.vendorIds` and `config.arduino.portKeywords`. -/
structure ScanConfig where
  vendorIds : List String
  portKeywords : List String
  deriving DecidableEq, Repr

/-- The two lists as shipped in `src/config.js`. -/
def shippedScanConfig : ScanConfig :=
  { vendorIds := ["2341", "1a86", "0403", "2a03", "10c4"]
    portKeywords := ["arduino", "usbserial", "usbmodem", "ch340", "cp210"] }

/-- The test `/^COM\d+$/i.test(path)`: the letters `COM` in either case, then
one or more decimal digits, and nothing else. -/
def comPortPattern (path : String) : Bool :=
  match path.data with
  | c :: o :: m :: d :: ds =>
    (c == 'C' || c == 'c') && (o == 'O' || o == 'o') && (m == 'M' || m == 'm') &&
      (d :: ds).all Char.isDigit
  | _ => false

/-- The three checks of `findPort` on one port: vendor id, keywords, COM
pattern. The default `''` of the destructuring covers an `undefined`
manufacturer. -/
def findPortMatches (toLowerCase : String → String) (cfg : ScanConfig) (info : PortInfo) :
    Bool :=
  if includesId cfg.vendorIds info.vendorId then true
  else
    let manufLow := toLowerCase (info.manufacturer.getD "")
    let pathLow := toLowerCase info.path
    if cfg.portKeywords.any
        (fun keyword => jsIncludes manufLow keyword || jsIncludes pathLow keyword) then true
    else comPortPattern info.path

/-- The loop of `findPort` over the listed ports. -/
def findPortIn (toLowerCase : String → String) (cfg : ScanConfig) :
    List PortInfo → Option String
  | [] => none
  | info :: rest =>
    if findPortMatches toLowerCase cfg info then some info.path
    else findPortIn toLowerCase cfg rest

/-- The method `findPort` of `ArduinoManager`; `listing` is what
`SerialPort.list()` answered, `none` when it failed (then `null`). -/
def findPort (toLowerCase : String → String) (cfg : ScanConfig)
    (listing : Option (List PortInfo)) : Option String :=
  match listing with
  | some ports => findPortIn toLowerCase cfg ports
  | none => none

/-- The description in the words of the specification, first half: the parts
of the fields that are present, in the order manufacturer, vendor and product
id, serial number. -/
def presentParts (port : PortInfo) : List String :=
  (if truthy port.manufacturer then [port.manufacturer.getD ""] else []) ++
  (if truthy port.vendorId && truthy port.productId then
    ["VID:" ++ port.vendorId.getD "" ++ " PID:" ++ port.productId.getD ""] else []) ++
  (if truthy port.serialNumber then ["S/N:" ++ port.serialNumber.getD ""] else [])

/-- The description in the words of the specification: the present parts
joined by the separator, or the raw path when no field is present. -/
def descriptionBySpec (port : PortInfo) : String :=
  if presentParts port = [] then port.path else String.intercalate " | " (presentParts port)

/-- Two listed ports: the first with vendor id `9999`, the second with the
Arduino vendor id `2341`. -/
def twoPorts : List PortInfo :=
  [ { path := "/dev/ttyS0", manufacturer := none, vendorId := some "9999",
      productId := none, serialNumber := none },
    { path := "/dev/ttyACM0", manufacturer := none, vendorId := some "2341",
      productId := some "0043", serialNumber := none } ]

/-- A Windows port that has a path only. -/
def bareComPort : PortInfo :=
  { path := "COM3", manufacturer := none, vendorId := none, productId := none,
    serialNumber := none }

/-- What holds of a manager between two events: no connect is in flight, and
a port held in `this.port` that is open is one on which `setupPortHandlers`
ran (`connectToPort` is the only place where a port is opened). -/
def Settled (s : ArduinoManager) : Prop :=
  s.isConnecting = false ∧ ∀ p, s.port = some p → p.isOpen = true → p.wired = true

/-- The attempt counter within its bound. -/
def AttemptsBounded (s : ArduinoManager) : Prop :=
  0 ≤ s.reconnectAttempts ∧ s.reconnectAttempts ≤ s.maxAttempts

/-- An output which, when it is a reconnecting status, is the status of an
attempt number between 1 and `maxAttempts`, out of `maxAttempts`. -/
def BoundedOut (maxAttempts : Int) (o : Out) : Prop :=
  ∀ n m, o = Out.status (reconnectingStatus n m) →
    ∃ k, 1 ≤ k ∧ k ≤ maxAttempts ∧ o = Out.status (reconnectingStatus k maxAttempts)

/-- A step from `s` with result `r` keeps the counter within its bound, keeps
`maxAttempts`, and sends no reconnecting status out of the bound. -/
def StepBounded (s : ArduinoManager) (r : ArduinoManager × List Out) : Prop :=
  AttemptsBounded r.1 ∧ r.1.maxAttempts = s.maxAttempts ∧
    ∀ o ∈ r.2, BoundedOut s.maxAttempts o

end ArduinoPlayer

namespace ArduinoPlayer

/-! ## Lemmas on maps and strings -/

theorem Dict.get?_set_self {α : Type} (d : Dict α) (k : String) (v : α) :
    (d.set k v).get? k = some v := by
  induction d with
  | nil => simp [Dict.set, Dict.get?]
  | cons hd tl ih =>
    obtain ⟨k', v'⟩ := hd
    by_cases h : k' = k
    · simp [Dict.set, Dict.get?, h]
    · simp [Dict.set, Dict.get?, h, ih]

theorem Dict.get?_set_other {α : Type} (d : Dict α) (k j : String) (v : α) (h : k ≠ j) :
    (d.set k v).get? j = d.get? j := by
  induction d with
  | nil => simp [Dict.set, Dict.get?, h]
  | cons hd tl ih =>
    obtain ⟨k', v'⟩ := hd
    by_cases hk : k' = k
    · subst hk
      simp [Dict.set, Dict.get?, h]
    · by_cases hj : k' = j
      · subst hj
        simp [Dict.set, Dict.get?, hk]
      · simp [Dict.set, Dict.get?, hk, hj, ih]

theorem Dict.sum_values_set_succ (d : Dict Nat) (k : String) :
    (Dict.values (d.set k (orZeroNat (d.get? k) + 1))).sum = (Dict.values d).sum + 1 := by
  induction d with
  | nil => simp [Dict.set, Dict.get?, Dict.values, orZeroNat]
  | cons hd tl ih =>
    obtain ⟨k', v'⟩ := hd
    by_cases h : k' = k
    · by_cases hv : v' = 0
      · simp [Dict.set, Dict.get?, Dict.values, orZeroNat, h, hv]; omega
      · simp [Dict.set, Dict.get?, Dict.values, orZeroNat, h, hv]; omega
    · simp only [Dict.values] at ih
      simp [Dict.set, Dict.get?, Dict.values, h, ih]; omega

theorem orZero_some (v : Int) : orZero (some v) = v := by
  by_cases h : v = 0 <;> simp [orZero, h]

theorem char_of_digit_range (c : Char) (h1 : 0x31 ≤ c.toNat) (h2 : c.toNat ≤ 0x35) :
    c = '1' ∨ c = '2' ∨ c = '3' ∨ c = '4' ∨ c = '5' := by
  have h := Char.ofNat_toNat c
  generalize c.toNat = n at h h1 h2
  subst h
  interval_cases n <;> simp

theorem validateButton_iff (button : String) :
    validateButton button = true ↔ button ∈ validLabels := by
  constructor
  · intro h
    obtain ⟨cs⟩ := button
    match cs, h with
    | [c], h =>
      simp only [validateButton, Bool.and_eq_true, decide_eq_true_eq] at h
      rcases char_of_digit_range c h.1 h.2 with rfl | rfl | rfl | rfl | rfl <;> decide
  · intro h
    simp only [validLabels, List.mem_cons, List.mem_singleton, List.not_mem_nil, or_false] at h
    rcases h with rfl | rfl | rfl | rfl | rfl <;> decide

theorem jsTrim_of_valid (button : String) (h : validateButton button = true) :
    jsTrim button = button := by
  rw [validateButton_iff] at h
  simp only [validLabels, List.mem_cons, List.mem_singleton, List.not_mem_nil, or_false] at h
  rcases h with rfl | rfl | rfl | rfl | rfl <;> decide

/-! ## The four outcomes of one line -/

theorem handleIncomingData_invalid (s : ArduinoManager) (data : String) (now : Int)
    (h : validateButton (jsTrim data) = false) :
    handleIncomingData s data now = (countBlocked s, []) := by
  simp [handleIncomingData, h]

theorem handleIncomingData_debounced (s : ArduinoManager) (data : String) (now : Int)
    (h : validateButton (jsTrim data) = true)
    (hd : now - orZero (s.lastButtonTime.get? (jsTrim data)) < s.buttonDebounceMs) :
    handleIncomingData s data now = (countBlocked s, []) := by
  simp [handleIncomingData, h, hd]

theorem handleIncomingData_spam (s : ArduinoManager) (data : String) (now : Int)
    (h : validateButton (jsTrim data) = true)
    (hd : ¬ now - orZero (s.lastButtonTime.get? (jsTrim data)) < s.buttonDebounceMs)
    (hs : (isSpamming s (jsTrim data) now).2 = true) :
    handleIncomingData s data now =
      (countBlocked (isSpamming s (jsTrim data) now).1,
        [Out.status (spamStatus (jsTrim data))]) := by
  simp only [handleIncomingData, h, hs]
  simp [hd]

theorem handleIncomingData_accept (s : ArduinoManager) (data : String) (now : Int)
    (h : validateButton (jsTrim data) = true)
    (hd : ¬ now - orZero (s.lastButtonTime.get? (jsTrim data)) < s.buttonDebounceMs)
    (hs : (isSpamming s (jsTrim data) now).2 = false) :
    (handleIncomingData s data now).2 =
        [Out.data (jsTrim data), Out.emit "button-pressed" (some (jsTrim data))] ∧
      (handleIncomingData s data now).1.stats.totalPresses = s.stats.totalPresses + 1 ∧
      (handleIncomingData s data now).1.stats.blockedPresses = s.stats.blockedPresses ∧
      (handleIncomingData s data now).1.stats.pressesPerButton =
        s.stats.pressesPerButton.set (jsTrim data)
          (orZeroNat (s.stats.pressesPerButton.get? (jsTrim data)) + 1) ∧
      (handleIncomingData s data now).1.lastButtonTime =
        s.lastButtonTime.set (jsTrim data) now := by
  simp only [handleIncomingData, h, hs]
  simp [hd, addToHistory, isSpamming]

theorem constructor_isFreshFilter (cfg : Config) (now : Int) :
    IsFreshFilter (ArduinoManager.constructor cfg now) := by
  simp [IsFreshFilter, ArduinoManager.constructor]

/-! ## Debounce -/

/-- The first valid line on a fresh filter is accepted when it clears the
baseline `0` and the threshold is positive. -/
theorem first_line_accepted (port : Option Port) (ra ma : Int) (rt : Option Timer)
    (ic icl : Bool) (D T lr : Int) (ls : List String) (label : String) (t1 : Int)
    (hlabel : validateButton label = true) (hT : ¬ T ≤ 0) (hbase : ¬ t1 < D) :
    handleIncomingData
      { port := port, reconnectAttempts := ra, maxAttempts := ma, reconnectTimer := rt,
        isConnecting := ic, isClosing := icl, buttonDebounceMs := D,
        lastButtonTime := [], buttonPressHistory := [], maxPressesPerSecond := T,
        stats := { totalPresses := 0, blockedPresses := 0, pressesPerButton := [],
                   lastReset := lr },
        listeners := ls } label t1 =
    ({ port := port, reconnectAttempts := ra, maxAttempts := ma, reconnectTimer := rt,
       isConnecting := ic, isClosing := icl, buttonDebounceMs := D,
       lastButtonTime := [(label, t1)], buttonPressHistory := [(label, [t1])],
       maxPressesPerSecond := T,
       stats := { totalPresses := 1, blockedPresses := 0, pressesPerButton := [(label, 1)],
                  lastReset := lr },
       listeners := ls },
     [Out.data label, Out.emit "button-pressed" (some label)]) := by
  simp [handleIncomingData, jsTrim_of_valid label hlabel, hlabel, isSpamming,
    addToHistory, Dict.get?, Dict.set, orZero, orZeroNat, hT, hbase]


/-- The baseline of a label never accepted is the instant `0`
(`lastButtonTime[button] || 0`): in the first 200 ms after the epoch, which no
`Date.now()` of a running system reads, a first line is itself debounced. With
the shipped configuration and lines at the instants 100 and 150, both are
blocked. This is why the theorems on two lines ask for a clock reading of at
least the debounce interval. -/
theorem debounce_first_line_blocked_by_zero_baseline :
    IsFreshFilter (ArduinoManager.constructor shippedConfig 0) ∧
    (ArduinoManager.constructor shippedConfig 0).buttonDebounceMs = 200 ∧
    validateButton "1" = true ∧ (100 : Int) ≤ 150 ∧ (150 : Int) - 100 < 200 ∧
    buttonEvents (feedTwo (ArduinoManager.constructor shippedConfig 0) "1" 100 "1" 150).2 = [] ∧
    (feedTwo (ArduinoManager.constructor shippedConfig 0) "1" 100 "1" 150).1.stats.totalPresses = 0 ∧
    (feedTwo (ArduinoManager.constructor shippedConfig 0) "1" 100 "1" 150).1.stats.blockedPresses = 2 := by
  decide

/-- Two lines of one valid label less than the debounce interval apart, on a
fresh filter with a positive threshold, the second at a clock reading of at
least the debounce interval: exactly one of them is accepted (the first when
it clears the baseline `0`, else the second) and the other is counted as
blocked. -/
theorem two_lines_within_debounce (s : ArduinoManager) (label : String) (t1 t2 : Int)
    (hfresh : IsFreshFilter s) (hlabel : validateButton label = true)
    (hT : 1 ≤ s.maxPressesPerSecond) (hclock : s.buttonDebounceMs ≤ t2)
    (hgap : t2 - t1 < s.buttonDebounceMs) :
    (feedTwo s label t1 label t2).2 =
        [Out.data label, Out.emit "button-pressed" (some label)] ∧
      buttonEvents (feedTwo s label t1 label t2).2 =
        [Out.emit "button-pressed" (some label)] ∧
      (feedTwo s label t1 label t2).1.stats.totalPresses = 1 ∧
      (feedTwo s label t1 label t2).1.stats.blockedPresses = 1 := by
  obtain ⟨port, ra, ma, rt, ic, icl, D, lbt, hist, T, ⟨tp, bp, ppb, lr⟩, ls⟩ := s
  simp only [IsFreshFilter] at hfresh
  obtain ⟨rfl, rfl, rfl, rfl, rfl⟩ := hfresh
  simp only at hT hclock hgap
  have h2 : ¬ T ≤ 0 := by omega
  have htrim := jsTrim_of_valid label hlabel
  by_cases h1 : t1 < D
  · have e1 : handleIncomingData
        { port := port, reconnectAttempts := ra, maxAttempts := ma, reconnectTimer := rt,
          isConnecting := ic, isClosing := icl, buttonDebounceMs := D,
          lastButtonTime := [], buttonPressHistory := [], maxPressesPerSecond := T,
          stats := { totalPresses := 0, blockedPresses := 0, pressesPerButton := [],
                     lastReset := lr },
          listeners := ls } label t1 = _ :=
      handleIncomingData_debounced _ label t1 (by rw [htrim]; exact hlabel)
        (by simpa [htrim, Dict.get?, orZero] using h1)
    have e2 := handleIncomingData_accept
        (countBlocked
          { port := port, reconnectAttempts := ra, maxAttempts := ma, reconnectTimer := rt,
            isConnecting := ic, isClosing := icl, buttonDebounceMs := D,
            lastButtonTime := [], buttonPressHistory := [], maxPressesPerSecond := T,
            stats := { totalPresses := 0, blockedPresses := 0, pressesPerButton := [],
                       lastReset := lr },
            listeners := ls }) label t2 (by rw [htrim]; exact hlabel)
        (by simp only [htrim, countBlocked, Dict.get?, orZero]; omega)
        (by simp [htrim, countBlocked, isSpamming, Dict.get?, List.dropWhile]; omega)
    rw [htrim] at e2
    obtain ⟨o2, tot2, blk2, -, -⟩ := e2
    simp only [feedTwo, e1, o2, tot2, blk2]
    simp [countBlocked, buttonEvents]
  · have e1 := first_line_accepted port ra ma rt ic icl D T lr ls label t1 hlabel h2 h1
    have e2 : handleIncomingData
        { port := port, reconnectAttempts := ra, maxAttempts := ma, reconnectTimer := rt,
          isConnecting := ic, isClosing := icl, buttonDebounceMs := D,
          lastButtonTime := [(label, t1)], buttonPressHistory := [(label, [t1])],
          maxPressesPerSecond := T,
          stats := { totalPresses := 1, blockedPresses := 0, pressesPerButton := [(label, 1)],
                     lastReset := lr },
          listeners := ls } label t2 = _ :=
      handleIncomingData_debounced _ label t2 (by rw [htrim]; exact hlabel)
        (by simpa [htrim, Dict.get?, orZero_some] using hgap)
    simp only [feedTwo, e1, e2]
    simp [countBlocked, buttonEvents]

/-- C1: on a freshly constructed `ArduinoManager`, for every configuration (its
debounce interval and threshold natural numbers, so the interval `D` of the
manager is the configured one, or 200 when that is 0), every valid label and
every pair of arrival times with `t2 - t1 < D`, read from a clock that is past
its first `D` milliseconds (`D ≤ t2`, as every `Date.now()` is), feeding the
label at `t1` and at `t2` hands the host exactly one `arduino-data` message
and one `button-pressed` event, and ends with `totalPresses = 1`,
`blockedPresses = 1`. -/
theorem debounce_blocks_second_line (maxAttempts : Int) (debounceMs maxPerSecond : Nat)
    (t0 : Int) (label : String) (t1 t2 : Int)
    (hlabel : validateButton label = true)
    (hclock : (ArduinoManager.constructor
      { maxReconnectAttempts := maxAttempts, buttonDebounceMs := debounceMs,
        maxPressesPerSecond := maxPerSecond } t0).buttonDebounceMs ≤ t2)
    (hgap : t2 - t1 < (ArduinoManager.constructor
      { maxReconnectAttempts := maxAttempts, buttonDebounceMs := debounceMs,
        maxPressesPerSecond := maxPerSecond } t0).buttonDebounceMs) :
    (feedTwo (ArduinoManager.constructor
        { maxReconnectAttempts := maxAttempts, buttonDebounceMs := debounceMs,
          maxPressesPerSecond := maxPerSecond } t0) label t1 label t2).2 =
        [Out.data label, Out.emit "button-pressed" (some label)] ∧
      buttonEvents (feedTwo (ArduinoManager.constructor
        { maxReconnectAttempts := maxAttempts, buttonDebounceMs := debounceMs,
          maxPressesPerSecond := maxPerSecond } t0) label t1 label t2).2 =
        [Out.emit "button-pressed" (some label)] ∧
      (feedTwo (ArduinoManager.constructor
        { maxReconnectAttempts := maxAttempts, buttonDebounceMs := debounceMs,
          maxPressesPerSecond := maxPerSecond } t0) label t1 label t2).1.stats.totalPresses
        = 1 ∧
      (feedTwo (ArduinoManager.constructor
        { maxReconnectAttempts := maxAttempts, buttonDebounceMs := debounceMs,
          maxPressesPerSecond := maxPerSecond } t0) label t1 label t2).1.stats.blockedPresses
        = 1 := by
  have hT : 1 ≤ (ArduinoManager.constructor
      { maxReconnectAttempts := maxAttempts, buttonDebounceMs := debounceMs,
        maxPressesPerSecond := maxPerSecond } t0).maxPressesPerSecond := by
    simp only [ArduinoManager.constructor, orDefault]
    split_ifs <;> omega
  exact two_lines_within_debounce _ label t1 t2 (constructor_isFreshFilter _ _) hlabel hT
    hclock hgap

/-- C1 at the scenario of the specification, on the shipped configuration:
label `1`, debounce 200 ms, two lines 50 ms apart. -/
theorem debounce_blocks_second_line_witness :
    (ArduinoManager.constructor shippedConfig sampleNow).buttonDebounceMs = 200 ∧
    (feedTwo (ArduinoManager.constructor shippedConfig sampleNow) "1" sampleNow "1"
        (sampleNow + 50)).2 = [Out.data "1", Out.emit "button-pressed" (some "1")] ∧
    buttonEvents (feedTwo (ArduinoManager.constructor shippedConfig sampleNow) "1" sampleNow "1"
        (sampleNow + 50)).2 = [Out.emit "button-pressed" (some "1")] ∧
    (feedTwo (ArduinoManager.constructor shippedConfig sampleNow) "1" sampleNow "1"
        (sampleNow + 50)).1.stats.totalPresses = 1 ∧
    (feedTwo (ArduinoManager.constructor shippedConfig sampleNow) "1" sampleNow "1"
        (sampleNow + 50)).1.stats.blockedPresses = 1 :=
  ⟨by decide,
    debounce_blocks_second_line 5 200 10 sampleNow "1" sampleNow (sampleNow + 50)
      (by decide) (by decide) (by decide)⟩

/-- C2, as stated, fails, in two ways. With debounce 200 ms and threshold
`T = 1`, the label `1` arriving at `sampleNow` and 200 ms later gives one event
only: the second line passes the debounce check and is then dropped by the
spam filter, whose one-second window already holds one timestamp. And with the
shipped configuration (debounce 200 ms, threshold 10), the label arriving at
times 100 and 300 gives one event only: the first line is debounced against
the baseline `0` of a label never seen. -/
theorem debounce_pass_fails_at_threshold_one :
    (IsFreshFilter (ArduinoManager.constructor
        { maxReconnectAttempts := 5, buttonDebounceMs := 200, maxPressesPerSecond := 1 }
        sampleNow) ∧
      validateButton "1" = true ∧ sampleNow ≤ sampleNow + 200 ∧
      (sampleNow + 200) - sampleNow ≥ (ArduinoManager.constructor
        { maxReconnectAttempts := 5, buttonDebounceMs := 200, maxPressesPerSecond := 1 }
        sampleNow).buttonDebounceMs ∧
      buttonEvents (feedTwo (ArduinoManager.constructor
        { maxReconnectAttempts := 5, buttonDebounceMs := 200, maxPressesPerSecond := 1 }
        sampleNow) "1" sampleNow "1" (sampleNow + 200)).2 =
          [Out.emit "button-pressed" (some "1")] ∧
      (feedTwo (ArduinoManager.constructor
        { maxReconnectAttempts := 5, buttonDebounceMs := 200, maxPressesPerSecond := 1 }
        sampleNow) "1" sampleNow "1" (sampleNow + 200)).1.stats.totalPresses = 1 ∧
      (feedTwo (ArduinoManager.constructor
        { maxReconnectAttempts := 5, buttonDebounceMs := 200, maxPressesPerSecond := 1 }
        sampleNow) "1" sampleNow "1" (sampleNow + 200)).1.stats.blockedPresses = 1) ∧
    (IsFreshFilter (ArduinoManager.constructor shippedConfig 0) ∧
      (100 : Int) ≤ 300 ∧
      (300 : Int) - 100 ≥ (ArduinoManager.constructor shippedConfig 0).buttonDebounceMs ∧
      buttonEvents (feedTwo (ArduinoManager.constructor shippedConfig 0) "1" 100 "1" 300).2 =
        [Out.emit "button-pressed" (some "1")] ∧
      (feedTwo (ArduinoManager.constructor shippedConfig 0) "1" 100 "1"
        300).1.stats.totalPresses = 1 ∧
      (feedTwo (ArduinoManager.constructor shippedConfig 0) "1" 100 "1"
        300).1.stats.blockedPresses = 1) := by
  decide

/-- C2, amended: from a fresh filter with debounce interval `D` and threshold
`T`, for every valid label and arrival times with `D ≤ t1` (the first line
clears the baseline `0`), `t2 - t1 ≥ D`, and either `T ≥ 2`, or `T ≥ 1` and
`t2 - t1 > 1000` (the spam filter lets the second line through), feeding the
label at `t1` and at `t2` emits two `button-pressed` events, with
`totalPresses = 2` and `blockedPresses = 0`. -/
theorem debounce_passes_second_line (s : ArduinoManager) (label : String) (t1 t2 : Int)
    (hfresh : IsFreshFilter s) (hlabel : validateButton label = true)
    (hbase : s.buttonDebounceMs ≤ t1) (hgap : t2 - t1 ≥ s.buttonDebounceMs)
    (hT : 2 ≤ s.maxPressesPerSecond ∨ (1 ≤ s.maxPressesPerSecond ∧ 1000 < t2 - t1)) :
    (feedTwo s label t1 label t2).2 =
        [Out.data label, Out.emit "button-pressed" (some label),
         Out.data label, Out.emit "button-pressed" (some label)] ∧
      buttonEvents (feedTwo s label t1 label t2).2 =
        [Out.emit "button-pressed" (some label), Out.emit "button-pressed" (some label)] ∧
      (feedTwo s label t1 label t2).1.stats.totalPresses = 2 ∧
      (feedTwo s label t1 label t2).1.stats.blockedPresses = 0 := by
  obtain ⟨port, ra, ma, rt, ic, icl, D, lbt, hist, T, ⟨tp, bp, ppb, lr⟩, ls⟩ := s
  simp only [IsFreshFilter] at hfresh
  obtain ⟨rfl, rfl, rfl, rfl, rfl⟩ := hfresh
  simp only at hT hbase hgap
  have h1 : ¬ t1 < D := by omega
  have h2 : ¬ T ≤ 0 := by omega
  have htrim := jsTrim_of_valid label hlabel
  have e1 := first_line_accepted port ra ma rt ic icl D T lr ls label t1 hlabel h2 h1
  have e2 := handleIncomingData_accept
      { port := port, reconnectAttempts := ra, maxAttempts := ma, reconnectTimer := rt,
        isConnecting := ic, isClosing := icl, buttonDebounceMs := D,
        lastButtonTime := [(label, t1)], buttonPressHistory := [(label, [t1])],
        maxPressesPerSecond := T,
        stats := { totalPresses := 1, blockedPresses := 0, pressesPerButton := [(label, 1)],
                   lastReset := lr },
        listeners := ls } label t2 (by rw [htrim]; exact hlabel)
      (by simp only [htrim, Dict.get?, if_true, orZero_some]; omega)
      (by
        by_cases hw : 1000 < t2 - t1
        · simp [htrim, isSpamming, Dict.get?, List.dropWhile, hw]; omega
        · simp [htrim, isSpamming, Dict.get?, List.dropWhile, hw]; omega)
  rw [htrim] at e2
  obtain ⟨o2, tot2, blk2, -, -⟩ := e2
  simp only [feedTwo, e1, o2, tot2, blk2]
  simp [buttonEvents]

/-- C2, amended, at debounce 200 ms and threshold 10: label `1` at `sampleNow`
and 200 ms later. -/
theorem debounce_passes_second_line_witness :
    (IsFreshFilter (ArduinoManager.constructor shippedConfig sampleNow) ∧
      validateButton "1" = true ∧
      (ArduinoManager.constructor shippedConfig sampleNow).buttonDebounceMs ≤ sampleNow ∧
      (sampleNow + 200) - sampleNow ≥
        (ArduinoManager.constructor shippedConfig sampleNow).buttonDebounceMs) ∧
    ((feedTwo (ArduinoManager.constructor shippedConfig sampleNow) "1" sampleNow "1"
          (sampleNow + 200)).2 =
        [Out.data "1", Out.emit "button-pressed" (some "1"),
         Out.data "1", Out.emit "button-pressed" (some "1")] ∧
      buttonEvents (feedTwo (ArduinoManager.constructor shippedConfig sampleNow) "1" sampleNow "1"
          (sampleNow + 200)).2 =
        [Out.emit "button-pressed" (some "1"), Out.emit "button-pressed" (some "1")] ∧
      (feedTwo (ArduinoManager.constructor shippedConfig sampleNow) "1" sampleNow "1"
          (sampleNow + 200)).1.stats.totalPresses = 2 ∧
      (feedTwo (ArduinoManager.constructor shippedConfig sampleNow) "1" sampleNow "1"
          (sampleNow + 200)).1.stats.blockedPresses = 0) :=
  ⟨⟨by decide, by decide, by decide, by decide⟩,
    debounce_passes_second_line (ArduinoManager.constructor shippedConfig sampleNow) "1"
      sampleNow (sampleNow + 200) (by decide) (by decide) (by decide) (by decide)
      (Or.inl (by decide))⟩

/-! ## Spam suppression -/

/-- C3: a valid line that passes the debounce check while the history of its
label, once the front entries more than 1000 ms older than `now` are removed,
holds at least `maxPressesPerSecond` timestamps, is dropped: the only output is
the spam status warning (no `button-pressed` event, no `arduino-data`
message), `blockedPresses` grows by one, and `lastButtonTime` (for every
label), `totalPresses` and `pressesPerButton` are unchanged. -/
theorem spam_line_is_dropped (s : ArduinoManager) (data : String) (now : Int)
    (hvalid : validateButton (jsTrim data) = true)
    (hdebounce : s.buttonDebounceMs ≤ now - orZero (s.lastButtonTime.get? (jsTrim data)))
    (hfull : s.maxPressesPerSecond ≤
      ((((s.buttonPressHistory.get? (jsTrim data)).getD []).dropWhile
        (fun t => decide (now - t > 1000))).length : Int)) :
    (handleIncomingData s data now).2 = [Out.status (spamStatus (jsTrim data))] ∧
      buttonEvents (handleIncomingData s data now).2 = [] ∧
      dataMessages (handleIncomingData s data now).2 = [] ∧
      (handleIncomingData s data now).1.stats.blockedPresses = s.stats.blockedPresses + 1 ∧
      (handleIncomingData s data now).1.lastButtonTime = s.lastButtonTime ∧
      (handleIncomingData s data now).1.stats.totalPresses = s.stats.totalPresses ∧
      (handleIncomingData s data now).1.stats.pressesPerButton = s.stats.pressesPerButton := by
  have hs : (isSpamming s (jsTrim data) now).2 = true := by
    simp only [isSpamming, decide_eq_true_eq]
    exact hfull
  rw [handleIncomingData_spam s data now hvalid (by omega) hs]
  simp [countBlocked, isSpamming, buttonEvents, dataMessages]

/-- C3 at a concrete state: threshold 2, label `3` accepted at `sampleNow` and
200 ms later; the third line, a further 200 ms later, is dropped as spam. -/
theorem spam_line_is_dropped_witness :
    (handleIncomingData
      (feedTwo (ArduinoManager.constructor
        { maxReconnectAttempts := 5, buttonDebounceMs := 200, maxPressesPerSecond := 2 }
        sampleNow) "3" sampleNow "3" (sampleNow + 200)).1 "3\r" (sampleNow + 400)).2
      = [Out.status (spamStatus "3")] ∧
    (handleIncomingData
      (feedTwo (ArduinoManager.constructor
        { maxReconnectAttempts := 5, buttonDebounceMs := 200, maxPressesPerSecond := 2 }
        sampleNow) "3" sampleNow "3" (sampleNow + 200)).1 "3\r"
        (sampleNow + 400)).1.stats.blockedPresses = 1 ∧
    (handleIncomingData
      (feedTwo (ArduinoManager.constructor
        { maxReconnectAttempts := 5, buttonDebounceMs := 200, maxPressesPerSecond := 2 }
        sampleNow) "3" sampleNow "3" (sampleNow + 200)).1 "3\r"
        (sampleNow + 400)).1.lastButtonTime = [("3", sampleNow + 200)] :=
  have h := spam_line_is_dropped
    (feedTwo (ArduinoManager.constructor
      { maxReconnectAttempts := 5, buttonDebounceMs := 200, maxPressesPerSecond := 2 }
      sampleNow) "3" sampleNow "3" (sampleNow + 200)).1 "3\r" (sampleNow + 400)
    (by decide) (by decide) (by decide)
  ⟨h.1, h.2.2.2.1, h.2.2.2.2.1⟩

/-! ## Statistics -/

theorem handleIncomingData_keeps_sum (s : ArduinoManager) (data : String) (now : Int)
    (h : (Dict.values s.stats.pressesPerButton).sum = s.stats.totalPresses) :
    (Dict.values (handleIncomingData s data now).1.stats.pressesPerButton).sum =
      (handleIncomingData s data now).1.stats.totalPresses := by
  by_cases hv : validateButton (jsTrim data) = true
  · by_cases hd : now - orZero (s.lastButtonTime.get? (jsTrim data)) < s.buttonDebounceMs
    · rw [handleIncomingData_debounced s data now hv hd]
      simpa [countBlocked] using h
    · by_cases hs : (isSpamming s (jsTrim data) now).2 = true
      · rw [handleIncomingData_spam s data now hv hd hs]
        simpa [countBlocked, isSpamming] using h
      · obtain ⟨-, htot, -, hppb, -⟩ :=
          handleIncomingData_accept s data now hv hd (by simpa using hs)
        rw [htot, hppb, Dict.sum_values_set_succ, h]
  · rw [handleIncomingData_invalid s data now (by simpa using hv)]
    simpa [countBlocked] using h

theorem runFilter_keeps_sum (ops : List FilterOp) (s : ArduinoManager)
    (h : (Dict.values s.stats.pressesPerButton).sum = s.stats.totalPresses) :
    (Dict.values (runFilter s ops).stats.pressesPerButton).sum =
      (runFilter s ops).stats.totalPresses := by
  induction ops generalizing s with
  | nil => simpa [runFilter] using h
  | cons op rest ih =>
    have hstep : (Dict.values (FilterOp.apply s op).stats.pressesPerButton).sum =
        (FilterOp.apply s op).stats.totalPresses := by
      cases op with
      | line data now => exact handleIncomingData_keeps_sum s data now h
      | reset now => simp [FilterOp.apply, resetStats, Dict.values]
    simpa [runFilter] using ih (FilterOp.apply s op) hstep

/-- C4: in every state reached from the constructor by any sequence of
`handleIncomingData` calls (any line, any time) and `resetStats` calls, the
values of `stats.pressesPerButton` sum to `stats.totalPresses`. -/
theorem stats_sum_invariant (cfg : Config) (t0 : Int) (ops : List FilterOp) :
    (Dict.values (runFilter (ArduinoManager.constructor cfg t0) ops).stats.pressesPerButton).sum =
      (runFilter (ArduinoManager.constructor cfg t0) ops).stats.totalPresses :=
  runFilter_keeps_sum ops _ (by simp [ArduinoManager.constructor, Dict.values])

/-- C5: one call of `handleIncomingData` increments exactly one of
`totalPresses` and `blockedPresses`, by exactly one. When it is `totalPresses`
the output is the `arduino-data` message followed by the `button-pressed`
event for the trimmed label; when it is `blockedPresses` no event and no
`arduino-data` message is in the output. So the event is emitted exactly when
`totalPresses` grew, and a line rejected by validation, by debounce or by the
spam filter produces none. -/
theorem one_counter_per_line (s : ArduinoManager) (data : String) (now : Int) :
    (((handleIncomingData s data now).1.stats.totalPresses = s.stats.totalPresses + 1 ∧
        (handleIncomingData s data now).1.stats.blockedPresses = s.stats.blockedPresses ∧
        (handleIncomingData s data now).2 =
          [Out.data (jsTrim data), Out.emit "button-pressed" (some (jsTrim data))]) ∨
      ((handleIncomingData s data now).1.stats.totalPresses = s.stats.totalPresses ∧
        (handleIncomingData s data now).1.stats.blockedPresses = s.stats.blockedPresses + 1 ∧
        buttonEvents (handleIncomingData s data now).2 = [] ∧
        dataMessages (handleIncomingData s data now).2 = [])) ∧
    (buttonEvents (handleIncomingData s data now).2 ≠ [] ↔
      (handleIncomingData s data now).1.stats.totalPresses = s.stats.totalPresses + 1) ∧
    (dataMessages (handleIncomingData s data now).2 ≠ [] ↔
      (handleIncomingData s data now).1.stats.totalPresses = s.stats.totalPresses + 1) ∧
    ((validateButton (jsTrim data) = false ∨
        now - orZero (s.lastButtonTime.get? (jsTrim data)) < s.buttonDebounceMs ∨
        (isSpamming s (jsTrim data) now).2 = true) →
      buttonEvents (handleIncomingData s data now).2 = [] ∧
      dataMessages (handleIncomingData s data now).2 = []) := by
  by_cases hv : validateButton (jsTrim data) = true
  · by_cases hd : now - orZero (s.lastButtonTime.get? (jsTrim data)) < s.buttonDebounceMs
    · rw [handleIncomingData_debounced s data now hv hd]
      simp [countBlocked, buttonEvents, dataMessages]
    · by_cases hs : (isSpamming s (jsTrim data) now).2 = true
      · rw [handleIncomingData_spam s data now hv hd hs]
        simp [countBlocked, isSpamming, buttonEvents, dataMessages]
      · obtain ⟨hout, htot, hblk, -, -⟩ :=
          handleIncomingData_accept s data now hv hd (by simpa using hs)
        rw [hout, htot, hblk]
        simp [buttonEvents, dataMessages, hv, hd, hs]
  · rw [handleIncomingData_invalid s data now (by simpa using hv)]
    simp [countBlocked, buttonEvents, dataMessages]

/-! ## Validation -/

/-- C6: a line whose trimmed text is not one of `1` .. `5` produces no output
(no event, no status), increments `blockedPresses` by one and leaves
`totalPresses`, `pressesPerButton`, `lastButtonTime` and `buttonPressHistory`
unchanged (the call is a total function: it cannot raise); and
`validateButton` accepts exactly the five strings `1` .. `5`. -/
theorem invalid_line_only_counts_blocked (s : ArduinoManager) (data : String) (now : Int)
    (hbad : jsTrim data ∉ validLabels) :
    (handleIncomingData s data now).2 = [] ∧
      (handleIncomingData s data now).1.stats.blockedPresses = s.stats.blockedPresses + 1 ∧
      (handleIncomingData s data now).1.stats.totalPresses = s.stats.totalPresses ∧
      (handleIncomingData s data now).1.stats.pressesPerButton = s.stats.pressesPerButton ∧
      (handleIncomingData s data now).1.lastButtonTime = s.lastButtonTime ∧
      (handleIncomingData s data now).1.buttonPressHistory = s.buttonPressHistory ∧
      (∀ button : String, validateButton button = true ↔
        button = "1" ∨ button = "2" ∨ button = "3" ∨ button = "4" ∨ button = "5") := by
  have hv : validateButton (jsTrim data) = false := by
    rw [← validateButton_iff] at hbad
    simpa using hbad
  rw [handleIncomingData_invalid s data now hv]
  refine ⟨rfl, rfl, rfl, rfl, rfl, rfl, fun button => ?_⟩
  rw [validateButton_iff]
  simp [validLabels]

/-- C6 at the line `12` followed by a carriage return. -/
theorem invalid_line_only_counts_blocked_witness :
    jsTrim "12\r" ∉ validLabels ∧
    (handleIncomingData (ArduinoManager.constructor shippedConfig sampleNow) "12\r"
      (sampleNow + 5)).2 = [] ∧
    (handleIncomingData (ArduinoManager.constructor shippedConfig sampleNow) "12\r"
      (sampleNow + 5)).1.stats.blockedPresses = 1 :=
  have h := invalid_line_only_counts_blocked
    (ArduinoManager.constructor shippedConfig sampleNow) "12\r" (sampleNow + 5) (by decide)
  ⟨by decide, h.1, h.2.1⟩

/-! ## Reconnection -/

theorem timerFires_not_found (s : ArduinoManager) (outcome : OpenOutcome)
    (h : s.reconnectTimer = some Timer.pending) :
    timerFires s none outcome = (s, [Out.status "Не найдена"]) := by
  obtain ⟨port, ra, ma, rt, ic, icl, D, lbt, hist, T, st, ls⟩ := s
  simp only at h
  subst h
  simp [timerFires, connect, scheduleReconnect]

theorem run_notFoundAttempts (n : Nat) (s : ArduinoManager)
    (h : s.reconnectTimer = some Timer.pending) :
    run s (notFoundAttempts n) = (s, List.replicate n (Out.status "Не найдена")) := by
  induction n with
  | zero => simp [notFoundAttempts, run]
  | succ k ih =>
    simp only [notFoundAttempts, List.replicate_succ, run, applyEvent,
      timerFires_not_found s OpenOutcome.opened h] at ih ⊢
    rw [ih]
    simp

/-- C7 on the code: with the shipped configuration (`maxAttempts = 5`), after
the open connection is lost the counter is 1 and a timer is due. When
`findPort` finds no port, every firing of the timer sends the not-found status
and re-arms the timer without touching the counter: after any number `n` of
failed attempts (5 included) the counter is still 1, a timer is still due, and
neither the exhausted status nor `max-reconnect-reached` was sent. When
instead the port is found and the open fails, the first attempt sends the
error status and schedules nothing: no timer is due, the counter is 1, and
the exhausted state is not reported either. -/
theorem reconnect_attempts_not_bounded :
    lostManager.maxAttempts = 5 ∧ lostManager.reconnectAttempts = 1 ∧
    timerPending lostManager = true ∧
    (∀ n : Nat,
      (run lostManager (notFoundAttempts n)).1.reconnectAttempts = 1 ∧
      timerPending (run lostManager (notFoundAttempts n)).1 = true ∧
      Out.status exhaustedStatus ∉ (run lostManager (notFoundAttempts n)).2 ∧
      Out.emit "max-reconnect-reached" none ∉ (run lostManager (notFoundAttempts n)).2) ∧
    (run lostManager [Event.timer (some "COM3") (OpenOutcome.openFails "Access denied")]).2 =
      [Out.status (errorStatus "Access denied")] ∧
    timerPending (run lostManager
      [Event.timer (some "COM3") (OpenOutcome.openFails "Access denied")]).1 = false ∧
    (run lostManager
      [Event.timer (some "COM3") (OpenOutcome.openFails "Access denied")]).1.reconnectAttempts
      = 1 := by
  have hp : lostManager.reconnectTimer = some Timer.pending := by decide
  refine ⟨by decide, by decide, by decide, fun n => ?_, by decide, by decide, by decide⟩
  rw [run_notFoundAttempts n lostManager hp]
  have he : Out.status exhaustedStatus ≠ Out.status "Не найдена" := by decide
  refine ⟨?_, ?_, ?_, ?_⟩
  · show lostManager.reconnectAttempts = 1
    decide
  · show timerPending lostManager = true
    decide
  · intro hmem
    exact he (List.eq_of_mem_replicate hmem)
  · intro hmem
    have := List.eq_of_mem_replicate hmem
    simp at this

/-! ## The guard of `connectToPort` -/

/-- C8: in every state with `isConnecting` or `isClosing` set, and for every
path and every answer of the serial library, `connectToPort` returns `false`
and changes nothing: the state is the same (same port handle, same flags,
same `reconnectAttempts`, same timer) and nothing is sent. -/
theorem connectToPort_guarded (s : ArduinoManager) (portPath : String) (outcome : OpenOutcome)
    (h : s.isConnecting = true ∨ s.isClosing = true) :
    connectToPort s portPath outcome = (s, false, []) := by
  rcases h with h | h <;> simp [connectToPort, h]

/-- C8 at a manager whose connect is in flight. -/
theorem connectToPort_guarded_witness :
    connectToPort { connectedManager with isConnecting := true } "COM4" OpenOutcome.opened =
      ({ connectedManager with isConnecting := true }, false, []) :=
  connectToPort_guarded { connectedManager with isConnecting := true } "COM4"
    OpenOutcome.opened (Or.inl rfl)

/-! ## Shutdown -/

theorem close_fields (s : ArduinoManager) :
    (close s).2 = [] ∧ (close s).1.isClosing = true ∧ (close s).1.reconnectTimer = none ∧
      portIsOpen (close s).1 = false ∧ (close s).1.isConnecting = s.isConnecting ∧
      (close s).1.reconnectAttempts = s.reconnectAttempts ∧ (close s).1.listeners = [] := by
  obtain ⟨port, ra, ma, rt, ic, icl, D, lbt, hist, T, st, ls⟩ := s
  rcases port with _ | ⟨path, _ | _, _ | _⟩ <;> rcases rt with _ | t <;>
    simp [close, closePort, onPortClose, handleDisconnect, markClosed, portIsOpen]

theorem close_idempotent (s : ArduinoManager) : close (close s).1 = ((close s).1, []) := by
  obtain ⟨port, ra, ma, rt, ic, icl, D, lbt, hist, T, st, ls⟩ := s
  rcases port with _ | ⟨path, _ | _, _ | _⟩ <;> rcases rt with _ | t <;>
    simp [close, closePort, onPortClose, handleDisconnect, markClosed]

/-- C9, as stated, fails: after `close()` on a freshly built manager the flag
`isClosing` is still set, and a following `connectToPort` is rejected by the
guard (it returns `false` and opens nothing) although the library would have
opened the port. -/
theorem close_leaves_isClosing_set :
    (close (ArduinoManager.constructor shippedConfig sampleNow)).1.isClosing = true ∧
    (close (close (ArduinoManager.constructor shippedConfig sampleNow)).1).1.isClosing = true ∧
    connectToPort (close (close (ArduinoManager.constructor shippedConfig sampleNow)).1).1
        "COM3" OpenOutcome.opened =
      ((close (close (ArduinoManager.constructor shippedConfig sampleNow)).1).1, false, []) ∧
    portIsOpen (connectToPort
      (close (close (ArduinoManager.constructor shippedConfig sampleNow)).1).1
        "COM3" OpenOutcome.opened).1 = false := by
  decide

/-- C9, amended: from every state, `close()` followed by `close()` never
raises (both are total), the second call changes nothing and sends nothing,
and the state they end in has no open port, no reconnect timer
(`reconnectTimer` is null), `isConnecting` as it was before, no listener, and
`isClosing` set: the manager is shut down for good, and every following
`connectToPort(path)` is rejected by the guard, returns `false` and changes
nothing. -/
theorem close_twice_ends_closed (s : ArduinoManager) :
    close (close s).1 = ((close s).1, []) ∧
      (close s).2 = [] ∧
      portIsOpen (close s).1 = false ∧ isConnected (close (close s).1).1 = false ∧
      (close s).1.reconnectTimer = none ∧ timerPending (close s).1 = false ∧
      (close s).1.isConnecting = s.isConnecting ∧
      (close s).1.listeners = [] ∧
      (close s).1.isClosing = true ∧
      (∀ (portPath : String) (outcome : OpenOutcome),
        connectToPort (close (close s).1).1 portPath outcome =
          ((close s).1, false, [])) := by
  obtain ⟨hout, hclosing, htimer, hport, hconn, -, hls⟩ := close_fields s
  have hidem := close_idempotent s
  refine ⟨hidem, hout, hport, ?_, htimer, ?_, hconn, hls, hclosing, ?_⟩
  · rw [hidem]
    exact hport
  · simp [timerPending, htimer]
  · intro portPath outcome
    rw [hidem]
    simp [connectToPort, hclosing]

/-! ## Disconnect notifications after shutdown -/

theorem handleIncomingData_isClosing (s : ArduinoManager) (data : String) (now : Int) :
    (handleIncomingData s data now).1.isClosing = s.isClosing := by
  by_cases hv : validateButton (jsTrim data) = true
  · by_cases hd : now - orZero (s.lastButtonTime.get? (jsTrim data)) < s.buttonDebounceMs
    · rw [handleIncomingData_debounced s data now hv hd]; rfl
    · by_cases hs : (isSpamming s (jsTrim data) now).2 = true
      · rw [handleIncomingData_spam s data now hv hd hs]; rfl
      · simp only [handleIncomingData, hv, hs]
        simp [hd, addToHistory, isSpamming]
  · rw [handleIncomingData_invalid s data now (by simpa using hv)]; rfl

theorem handleDisconnect_closing (s : ArduinoManager) (h : s.isClosing = true) :
    handleDisconnect s = (s, []) := by
  simp [handleDisconnect, h]

theorem applyEvent_keeps_closing (s : ArduinoManager) (e : Event) (h : s.isClosing = true) :
    (applyEvent s e).1.isClosing = true := by
  cases e with
  | connectToPort portPath outcome => simp [applyEvent, connectToPort, h]
  | connect found outcome =>
    rcases found with _ | portPath
    · simp [applyEvent, connect, scheduleReconnect, h]
    · by_cases hp : portPath = "" <;>
        simp [applyEvent, connect, scheduleReconnect, connectToPort, h, hp]
  | reconnect found outcome =>
    rcases found with _ | portPath
    · simp [applyEvent, reconnect, connect, scheduleReconnect, h]
    · by_cases hp : portPath = "" <;>
        simp [applyEvent, reconnect, connect, scheduleReconnect, connectToPort, h, hp]
  | close => exact (close_fields s).2.1
  | timer found outcome =>
    obtain ⟨port, ra, ma, rt, ic, icl, D, lbt, hist, T, st, ls⟩ := s
    simp only at h
    subst h
    rcases rt with _ | t
    · simp [applyEvent, timerFires]
    · cases t
      · rcases found with _ | portPath
        · simp [applyEvent, timerFires, connect, scheduleReconnect]
        · by_cases hp : portPath = "" <;>
            simp [applyEvent, timerFires, connect, scheduleReconnect, connectToPort, hp]
      · simp [applyEvent, timerFires]
  | portOpen portPath => simp [applyEvent, onPortOpen, h]
  | portError message => simp [applyEvent, onPortError, handleDisconnect, h]
  | portClose current =>
    cases current <;> simp [applyEvent, onPortClose, handleDisconnect, markClosed, h]
  | data line now => simp [applyEvent, handleIncomingData_isClosing, h]
  | resetStats now => simp [applyEvent, resetStats, h]

theorem run_keeps_closing (evs : List Event) (s : ArduinoManager) (h : s.isClosing = true) :
    (run s evs).1.isClosing = true := by
  induction evs generalizing s with
  | nil => simpa [run] using h
  | cons e rest ih => simpa [run] using ih _ (applyEvent_keeps_closing s e h)

/-- C10, as stated, fails for the `error` notification: after `close()` on the
connected manager, an `error` notification of the port still sends the error
status of the handler installed by `setupPortHandlers`, which runs before
`handleDisconnect` is reached. -/
theorem error_after_close_sends_status :
    (close connectedManager).1.reconnectTimer = none ∧
    (applyEvent (close connectedManager).1 (Event.portError "Port is not open")).2 =
      [Out.status (errorStatus "Port is not open")] ∧
    (applyEvent (close connectedManager).1 (Event.portError "Port is not open")).2 ≠ [] := by
  decide

/-- C10, amended: from every state, after `close()` no reconnect timer is due
and `reconnectTimer` is null; and in every later state (whatever calls,
timers, notifications and lines follow) `handleDisconnect` is a no-op: it
schedules no timer, leaves `reconnectAttempts` and all else unchanged, and
sends no status and no event. So a `close` notification has no effect at
all, and an `error` notification changes nothing and sends only the error
status of its own handler. -/
theorem disconnect_ignored_after_close (s : ArduinoManager) (later : List Event)
    (message : String) (current : Bool) :
    (close s).1.reconnectTimer = none ∧ timerPending (close s).1 = false ∧
      handleDisconnect (run (close s).1 later).1 = ((run (close s).1 later).1, []) ∧
      applyEvent (run (close s).1 later).1 (Event.portClose false) =
        ((run (close s).1 later).1, []) ∧
      (applyEvent (run (close s).1 later).1 (Event.portClose current)).2 = [] ∧
      (applyEvent (run (close s).1 later).1 (Event.portClose current)).1.reconnectAttempts =
        (run (close s).1 later).1.reconnectAttempts ∧
      (applyEvent (run (close s).1 later).1 (Event.portClose current)).1.reconnectTimer =
        (run (close s).1 later).1.reconnectTimer ∧
      applyEvent (run (close s).1 later).1 (Event.portError message) =
        ((run (close s).1 later).1, [Out.status (errorStatus message)]) := by
  have hc : (run (close s).1 later).1.isClosing = true :=
    run_keeps_closing later _ (close_fields s).2.1
  have htimer := (close_fields s).2.2.1
  refine ⟨htimer, by simp [timerPending, htimer], handleDisconnect_closing _ hc, ?_, ?_, ?_, ?_, ?_⟩
  · simp [applyEvent, onPortClose, handleDisconnect_closing _ hc]
  · cases current <;> simp [applyEvent, onPortClose, handleDisconnect, markClosed, hc]
  · cases current <;> simp [applyEvent, onPortClose, handleDisconnect, markClosed, hc]
  · cases current <;> simp [applyEvent, onPortClose, handleDisconnect, markClosed, hc]
  · simp [applyEvent, onPortError, handleDisconnect_closing _ hc]

/-! ## Opening a port -/

theorem connected_ne_reconnecting (portPath : String) (a m : Int) :
    "Подключена: " ++ portPath ≠ reconnectingStatus a m := by
  intro h
  have h2 := congrArg (fun t => t.data.get? 1) h
  simp [reconnectingStatus, String.data_append] at h2

theorem connected_ne_exhausted (portPath : String) :
    "Подключена: " ++ portPath ≠ exhaustedStatus := by
  intro h
  have h2 := congrArg (fun t => t.data.get? 0) h
  simp [exhaustedStatus, String.data_append] at h2

theorem connectToPort_admitted_no_open_port (s : ArduinoManager) (portPath : String)
    (outcome : OpenOutcome) (hc : s.isConnecting = false) (hcl : s.isClosing = false)
    (hp : portIsOpen s = false) :
    connectToPort s portPath outcome =
      match outcome with
      | OpenOutcome.constructFails message => (s, false, [Out.status (errorStatus message)])
      | OpenOutcome.openFails message =>
        ({ s with port := some { path := portPath, isOpen := false, wired := false } },
          false, [Out.status (errorStatus message)])
      | OpenOutcome.opened =>
        ({ s with port := some { path := portPath, isOpen := true, wired := true } },
          true, []) := by
  obtain ⟨port, ra, ma, rt, ic, icl, D, lbt, hist, T, st, ls⟩ := s
  simp only at hc hcl
  subst hc hcl
  have hp2 : portIsOpen
      { port := port, reconnectAttempts := ra, maxAttempts := ma, reconnectTimer := rt,
        isConnecting := true, isClosing := false, buttonDebounceMs := D, lastButtonTime := lbt,
        buttonPressHistory := hist, maxPressesPerSecond := T, stats := st, listeners := ls }
      = false := hp
  cases outcome <;> simp [connectToPort, hp2]

/-- C11 on the code: `connectToPort` itself never resets the counter and never
sends the connected status. For every state and path, when it returns `true`
the counter is at least what it was and the status is not among the outputs;
the reset and the status belong to the `open` handler, which
`setupPortHandlers` attaches only after `await this.openPort()` has resolved.
With the shipped configuration: after a loss, the timer fires, the port
opens and `connectToPort` returns `true`, yet the counter stays at 1 and
nothing is sent; after five losses, each followed by a successful reopen, the
counter is 5 and the sixth loss reports the exhausted state. -/
theorem open_success_does_not_reset_counter :
    (∀ (s : ArduinoManager) (portPath : String),
      (connectToPort s portPath OpenOutcome.opened).2.1 = true →
      s.reconnectAttempts ≤ (connectToPort s portPath OpenOutcome.opened).1.reconnectAttempts ∧
      Out.status ("Подключена: " ++ portPath) ∉
        (connectToPort s portPath OpenOutcome.opened).2.2) ∧
    lostManager.reconnectAttempts = 1 ∧
    connectToPort { lostManager with reconnectTimer := some Timer.spent } "COM3"
        OpenOutcome.opened =
      ((run lostManager [Event.timer (some "COM3") OpenOutcome.opened]).1, true, []) ∧
    isConnected (run lostManager [Event.timer (some "COM3") OpenOutcome.opened]).1 = true ∧
    (run lostManager [Event.timer (some "COM3") OpenOutcome.opened]).1.reconnectAttempts = 1 ∧
    (run lostManager [Event.timer (some "COM3") OpenOutcome.opened]).2 = [] ∧
    isConnected (run connectedManager (List.replicate 5 lossAndReopen).flatten).1 = true ∧
    (run connectedManager (List.replicate 5 lossAndReopen).flatten).1.reconnectAttempts = 5 ∧
    (applyEvent (run connectedManager (List.replicate 5 lossAndReopen).flatten).1
        (Event.portClose true)).2 =
      [Out.emit "disconnected" none, Out.status exhaustedStatus,
       Out.emit "max-reconnect-reached" none] := by
  refine ⟨fun s portPath hret => ?_, by decide, by decide, by decide, by decide, by decide,
    by decide, by decide, by decide⟩
  obtain ⟨port, ra, ma, rt, ic, icl, D, lbt, hist, T, st, ls⟩ := s
  have h1 := connected_ne_reconnecting portPath (ra + 1) ma
  have h2 := connected_ne_exhausted portPath
  cases ic <;> cases icl <;> simp [connectToPort] at hret ⊢
  rcases port with _ | ⟨path, _ | _, _ | _⟩ <;>
    simp [portIsOpen, closePort, onPortClose, handleDisconnect, markClosed, scheduleReconnect]
  · by_cases hlt : ra < ma <;> simp [hlt, h1, h2]

/-- C12 on the code, in a state with an open port: on the connected manager
(admitted by the guard, counter 0, no timer), `connectToPort` to `COM4` with a
failing open first tears down `COM3`, whose `close` notification runs
`handleDisconnect` (nothing sets `isClosing` for this teardown, as `close()`
does for its own): the call returns `false`, but the counter becomes 1, a
reconnect timer is due, and the reconnecting status precedes the error
status. -/
theorem open_failure_after_teardown_changes_counter :
    connectedManager.isConnecting = false ∧ connectedManager.isClosing = false ∧
    connectedManager.reconnectAttempts = 0 ∧ connectedManager.reconnectTimer = none ∧
    (connectToPort connectedManager "COM4" (OpenOutcome.openFails "Access denied")).2.1
      = false ∧
    (connectToPort connectedManager "COM4"
      (OpenOutcome.openFails "Access denied")).1.reconnectAttempts = 1 ∧
    (connectToPort connectedManager "COM4"
      (OpenOutcome.openFails "Access denied")).1.reconnectTimer = some Timer.pending ∧
    (connectToPort connectedManager "COM4" (OpenOutcome.openFails "Access denied")).2.2 =
      [Out.emit "disconnected" none, Out.status (reconnectingStatus 1 5),
       Out.status (errorStatus "Access denied")] := by
  decide

/-- What a failing open does in general: for every state admitted by the
guard and every path, when constructing or opening the port fails with a
message, `connectToPort` (a
total function: it cannot raise) returns `false`, its last output is the
error status carrying the message, preceded only by what the teardown of a
previously open port sent, so that this status occurs exactly once, and it
leaves `isConnecting` and `isClosing` false (a later call is admitted). When no port was open before the call, the error
status is the only output and `reconnectAttempts` and the reconnect timer are
unchanged. When the port opens instead, `isConnecting` is false as well. -/
theorem open_failure_reported (s : ArduinoManager) (portPath message : String)
    (outcome : OpenOutcome) (hc : s.isConnecting = false) (hcl : s.isClosing = false)
    (hfail : outcome = OpenOutcome.constructFails message ∨
      outcome = OpenOutcome.openFails message) :
    (connectToPort s portPath outcome).2.1 = false ∧
      (connectToPort s portPath outcome).2.2 =
        (if portIsOpen s then (closePort { s with isConnecting := true }).2 else []) ++
          [Out.status (errorStatus message)] ∧
      List.count (Out.status (errorStatus message)) (connectToPort s portPath outcome).2.2
        = 1 ∧
      (connectToPort s portPath outcome).1.isConnecting = false ∧
      (connectToPort s portPath outcome).1.isClosing = false ∧
      (portIsOpen s = false →
        (connectToPort s portPath outcome).2.2 = [Out.status (errorStatus message)] ∧
        (connectToPort s portPath outcome).1.reconnectAttempts = s.reconnectAttempts ∧
        (connectToPort s portPath outcome).1.reconnectTimer = s.reconnectTimer) ∧
      (connectToPort s portPath OpenOutcome.opened).1.isConnecting = false ∧
      (connectToPort s portPath OpenOutcome.opened).2.1 = true := by
  obtain ⟨port, ra, ma, rt, ic, icl, D, lbt, hist, T, st, ls⟩ := s
  simp only at hc hcl
  subst hc hcl
  have h1 : reconnectingStatus (ra + 1) ma ≠ errorStatus message := by
    intro h
    have h2 := congrArg (fun t => t.data.get? 0) h
    simp [reconnectingStatus, errorStatus, String.data_append] at h2
  have h2 : exhaustedStatus ≠ errorStatus message := by
    intro h
    have h2 := congrArg (fun t => t.data.get? 1) h
    simp [exhaustedStatus, errorStatus, String.data_append] at h2
  rcases hfail with rfl | rfl <;>
    rcases port with _ | ⟨path, _ | _, _ | _⟩ <;>
    simp [connectToPort, portIsOpen, closePort, onPortClose, handleDisconnect, markClosed,
      scheduleReconnect] <;>
    by_cases hlt : ra < ma <;> simp [hlt, h1, h2, List.count_cons]

/-- A failing open on a freshly built manager: opening `COM3` fails with
`Access denied`. -/
theorem open_failure_reported_witness :
    (connectToPort (ArduinoManager.constructor shippedConfig sampleNow) "COM3"
      (OpenOutcome.openFails "Access denied")).2.1 = false ∧
    (connectToPort (ArduinoManager.constructor shippedConfig sampleNow) "COM3"
      (OpenOutcome.openFails "Access denied")).2.2 =
        [Out.status (errorStatus "Access denied")] ∧
    (connectToPort (ArduinoManager.constructor shippedConfig sampleNow) "COM3"
      (OpenOutcome.openFails "Access denied")).1.isConnecting = false :=
  have h := open_failure_reported (ArduinoManager.constructor shippedConfig sampleNow)
    "COM3" "Access denied" (OpenOutcome.openFails "Access denied") rfl rfl (Or.inr rfl)
  ⟨h.1, (h.2.2.2.2.2.1 (by decide)).1, h.2.2.2.1⟩

/-! ## Statistics reset -/

/-- C14: `resetStats` at time `now` sets `totalPresses = 0`,
`blockedPresses = 0`, `pressesPerButton` empty and `lastReset = now`, and
leaves `buttonPressHistory` and `lastButtonTime` (hence every label) as they
were; and a line processed right after the reset gets the decision it would
have got without it: the same outputs, the same history and debounce baseline
afterwards, and the same counter grows by the same amount. -/
theorem resetStats_keeps_filter_decisions (s : ArduinoManager) (now : Int) (data : String)
    (t : Int) :
    (resetStats s now).stats =
        { totalPresses := 0, blockedPresses := 0, pressesPerButton := [], lastReset := now } ∧
      (resetStats s now).buttonPressHistory = s.buttonPressHistory ∧
      (resetStats s now).lastButtonTime = s.lastButtonTime ∧
      (handleIncomingData (resetStats s now) data t).2 = (handleIncomingData s data t).2 ∧
      (handleIncomingData (resetStats s now) data t).1.buttonPressHistory =
        (handleIncomingData s data t).1.buttonPressHistory ∧
      (handleIncomingData (resetStats s now) data t).1.lastButtonTime =
        (handleIncomingData s data t).1.lastButtonTime ∧
      (handleIncomingData s data t).1.stats.totalPresses =
        s.stats.totalPresses +
          (handleIncomingData (resetStats s now) data t).1.stats.totalPresses ∧
      (handleIncomingData s data t).1.stats.blockedPresses =
        s.stats.blockedPresses +
          (handleIncomingData (resetStats s now) data t).1.stats.blockedPresses := by
  refine ⟨rfl, rfl, rfl, ?_⟩
  simp only [handleIncomingData, resetStats, isSpamming, addToHistory, countBlocked]
  split_ifs <;> simp

/-! ## The press history after one line -/

theorem isSpamming_snd (s : ArduinoManager) (label : String) (now : Int) :
    (isSpamming s label now).2 =
      decide (((trimmedHistory s label now).length : Int) ≥ s.maxPressesPerSecond) := rfl

theorem historyOf_set_self (s : ArduinoManager) (label : String) (l : List Int) :
    historyOf { s with buttonPressHistory := s.buttonPressHistory.set label l } label = l := by
  simp [historyOf, Dict.get?_set_self]

theorem historyOf_set_other (s : ArduinoManager) (label other : String) (l : List Int)
    (h : label ≠ other) :
    historyOf { s with buttonPressHistory := s.buttonPressHistory.set label l } other =
      historyOf s other := by
  simp [historyOf, Dict.get?_set_other _ _ _ _ h]

/-- The history of every label after one line: untouched unless the line is
valid and passes the debounce check; then the history of its label is the
trimmed one when the line is dropped as spam, and the trimmed one with `now`
pushed and the cap applied when the line is accepted. -/
theorem historyOf_after_line (s : ArduinoManager) (data : String) (now : Int)
    (label : String) :
    historyOf (handleIncomingData s data now).1 label =
      if validateButton (jsTrim data) = true ∧
          ¬ now - orZero (s.lastButtonTime.get? (jsTrim data)) < s.buttonDebounceMs ∧
          jsTrim data = label then
        if ((trimmedHistory s label now).length : Int) ≥ s.maxPressesPerSecond then
          trimmedHistory s label now
        else capHistory (trimmedHistory s label now ++ [now])
      else historyOf s label := by
  by_cases hv : validateButton (jsTrim data) = true
  · by_cases hd : now - orZero (s.lastButtonTime.get? (jsTrim data)) < s.buttonDebounceMs
    · rw [handleIncomingData_debounced s data now hv hd]
      simp [hd, countBlocked, historyOf]
    · by_cases hl : jsTrim data = label
      · subst hl
        by_cases hs : ((trimmedHistory s (jsTrim data) now).length : Int) ≥
            s.maxPressesPerSecond
        · have hs2 : (isSpamming s (jsTrim data) now).2 = true := by
            rw [isSpamming_snd]; simpa using hs
          rw [handleIncomingData_spam s data now hv hd hs2, if_pos ⟨hv, hd, rfl⟩, if_pos hs]
          simp [countBlocked, isSpamming, historyOf, Dict.get?_set_self, trimmedHistory]
        · have hs2 : (isSpamming s (jsTrim data) now).2 = false := by
            rw [isSpamming_snd]; simpa using hs
          rw [if_pos ⟨hv, hd, rfl⟩, if_neg hs]
          simp only [handleIncomingData, hv, hs2]
          simp [hd, isSpamming, addToHistory, historyOf, Dict.get?_set_self,
            trimmedHistory, capHistory]
      · by_cases hs2 : (isSpamming s (jsTrim data) now).2 = true
        · rw [handleIncomingData_spam s data now hv hd hs2]
          simp [hl, countBlocked, isSpamming, historyOf, Dict.get?_set_other _ _ _ _ hl]
        · simp only [handleIncomingData, hv, hs2]
          simp [hd, hl, isSpamming, addToHistory, historyOf, Dict.get?_set_other _ _ _ _ hl]
  · rw [handleIncomingData_invalid s data now (by simpa using hv)]
    simp [hv, countBlocked, historyOf]

/-! ## The window and the capacity of the press history -/

theorem HistoryOk.mono {bound bound' : Int} {l : List Int} (h : HistoryOk bound l)
    (hb : bound ≤ bound') : HistoryOk bound' l :=
  ⟨fun x hx => le_trans (h.1 x hx) hb, h.2.1, h.2.2.1, h.2.2.2⟩

theorem HistoryOk.nil (bound : Int) : HistoryOk bound [] := by
  simp [HistoryOk]

theorem dropWhile_old_window (now : Int) (l : List Int) (hs : l.Pairwise (fun a b => a ≤ b)) :
    ∀ h ∈ l.dropWhile (fun t => decide (now - t > 1000)), now - h ≤ 1000 := by
  induction l with
  | nil => simp
  | cons a t ih =>
    rw [List.pairwise_cons] at hs
    by_cases ha : now - a > 1000
    · simpa [List.dropWhile_cons, ha] using ih hs.2
    · intro h hh
      simp only [List.dropWhile_cons, decide_eq_true_eq, ha, if_false, List.mem_cons] at hh
      rcases hh with rfl | hh
      · omega
      · have := hs.1 h hh
        omega

theorem HistoryOk.trim {bound : Int} {l : List Int} (h : HistoryOk bound l) (now : Int) :
    HistoryOk bound (l.dropWhile (fun t => decide (now - t > 1000))) := by
  have hsuf := List.dropWhile_suffix (l := l) (fun t => decide (now - t > 1000))
  refine ⟨fun x hx => h.1 x (hsuf.subset hx), h.2.1.sublist hsuf.sublist,
    le_trans hsuf.length_le h.2.2.1, fun x hx y hy => h.2.2.2 x (hsuf.subset hx) y (hsuf.subset hy)⟩

theorem HistoryOk.push {bound now : Int} {l : List Int} (h : HistoryOk bound l)
    (hb : bound ≤ now) (hw : ∀ x ∈ l, now - x ≤ 1000) :
    HistoryOk now (capHistory (l ++ [now])) := by
  have hall : ∀ x ∈ l ++ [now], x ≤ now ∧ now - x ≤ 1000 := by
    intro x hx
    rcases List.mem_append.1 hx with hx | hx
    · exact ⟨le_trans (h.1 x hx) hb, hw x hx⟩
    · simp only [List.mem_singleton] at hx
      subst hx
      omega
  have hpair : (l ++ [now]).Pairwise (fun a b => a ≤ b) := by
    rw [List.pairwise_append]
    refine ⟨h.2.1, List.pairwise_singleton _ _, fun a ha b hb' => ?_⟩
    simp only [List.mem_singleton] at hb'
    subst hb'
    exact le_trans (h.1 a ha) hb
  have hsub : (capHistory (l ++ [now])).Sublist (l ++ [now]) := by
    unfold capHistory
    split_ifs
    · exact List.drop_sublist 1 _
    · exact List.Sublist.refl _
  refine ⟨fun x hx => (hall x (hsub.subset hx)).1, hpair.sublist hsub, ?_,
    fun x hx y hy => ?_⟩
  · have hl := h.2.2.1
    unfold capHistory
    split_ifs <;> simp at * <;> omega
  · have h1 := hall x (hsub.subset hx)
    have h2 := hall y (hsub.subset hy)
    omega

theorem handleIncomingData_keeps_history_ok (s : ArduinoManager) (data : String)
    (bound now : Int) (hb : bound ≤ now)
    (h : ∀ label, HistoryOk bound (historyOf s label)) :
    ∀ label, HistoryOk now (historyOf (handleIncomingData s data now).1 label) := by
  intro label
  rw [historyOf_after_line]
  have htrim : HistoryOk bound (trimmedHistory s label now) := (h label).trim now
  split_ifs
  · exact htrim.mono hb
  · exact htrim.push hb (dropWhile_old_window now _ (h label).2.1)
  · exact (h label).mono hb

theorem runFilter_keeps_history_ok (ops : List FilterOp) (s : ArduinoManager) (bound : Int)
    (h : ∀ label, HistoryOk bound (historyOf s label))
    (hb : ∀ t ∈ lineTimes ops, bound ≤ t)
    (hmono : (lineTimes ops).Pairwise (fun a b => a ≤ b)) :
    ∃ bound', ∀ label, HistoryOk bound' (historyOf (runFilter s ops) label) := by
  induction ops generalizing s bound with
  | nil => exact ⟨bound, by simpa [runFilter] using h⟩
  | cons op rest ih =>
    cases op with
    | line data now =>
      simp only [lineTimes, List.pairwise_cons, List.mem_cons, forall_eq_or_imp] at hb hmono
      have hstep := handleIncomingData_keeps_history_ok s data bound now hb.1 h
      simpa [runFilter, FilterOp.apply] using ih _ now hstep hmono.1 hmono.2
    | reset now =>
      simp only [lineTimes] at hb hmono
      simpa [runFilter, FilterOp.apply] using
        ih (resetStats s now) bound (fun label => by simpa [resetStats, historyOf] using h label)
          hb hmono

/-- C13: in every state reached from a fresh filter by `handleIncomingData`
calls whose timestamps never decrease, and `resetStats` calls, the list
`buttonPressHistory[label]` of every label has at most 100 entries, and
every entry is at most 1000 ms older than the newest entry of the list (its
last entry; in fact any two entries are at most 1000 ms apart). -/
theorem press_history_invariant (s : ArduinoManager) (ops : List FilterOp) (label : String)
    (hfresh : IsFreshFilter s)
    (hmono : (lineTimes ops).Pairwise (fun a b => a ≤ b)) :
    (historyOf (runFilter s ops) label).length ≤ 100 ∧
      (∀ h ∈ historyOf (runFilter s ops) label,
        ∀ newest ∈ (historyOf (runFilter s ops) label).getLast?, newest - h ≤ 1000) ∧
      (∀ h ∈ historyOf (runFilter s ops) label,
        ∀ h' ∈ historyOf (runFilter s ops) label, h' - h ≤ 1000) := by
  have h0 : ∀ bound label, HistoryOk bound (historyOf s label) := by
    intro bound label
    have : historyOf s label = [] := by simp [historyOf, hfresh.2.1, Dict.get?]
    rw [this]
    exact HistoryOk.nil bound
  have hex : ∃ bound, ∀ t ∈ lineTimes ops, bound ≤ t := by
    cases hl : lineTimes ops with
    | nil => exact ⟨0, by simp⟩
    | cons t ts =>
      rw [hl, List.pairwise_cons] at hmono
      exact ⟨t, by simpa using hmono.1⟩
  obtain ⟨bound, hb⟩ := hex
  obtain ⟨bound', hok⟩ := runFilter_keeps_history_ok ops s bound (h0 bound) hb hmono
  refine ⟨(hok label).2.2.1, fun h hh newest hn => ?_, (hok label).2.2.2⟩
  exact (hok label).2.2.2 h hh newest (List.mem_of_getLast?_eq_some hn)

/-- C13 on the sample sequence of calls, from the shipped configuration. -/
theorem press_history_invariant_witness :
    (historyOf (runFilter (ArduinoManager.constructor shippedConfig sampleNow) sampleOps)
        "1").length ≤ 100 ∧
      (∀ h ∈ historyOf (runFilter (ArduinoManager.constructor shippedConfig sampleNow)
          sampleOps) "1",
        ∀ newest ∈ (historyOf (runFilter (ArduinoManager.constructor shippedConfig sampleNow)
          sampleOps) "1").getLast?, newest - h ≤ 1000) ∧
      (∀ h ∈ historyOf (runFilter (ArduinoManager.constructor shippedConfig sampleNow)
          sampleOps) "1",
        ∀ h' ∈ historyOf (runFilter (ArduinoManager.constructor shippedConfig sampleNow)
          sampleOps) "1", h' - h ≤ 1000) :=
  press_history_invariant (ArduinoManager.constructor shippedConfig sampleNow) sampleOps "1"
    (by decide) (by decide)

/-! ## The spam filter behind the debounce check -/

theorem handleIncomingData_keeps_thresholds (s : ArduinoManager) (data : String) (now : Int) :
    (handleIncomingData s data now).1.buttonDebounceMs = s.buttonDebounceMs ∧
      (handleIncomingData s data now).1.maxPressesPerSecond = s.maxPressesPerSecond := by
  by_cases hv : validateButton (jsTrim data) = true
  · by_cases hd : now - orZero (s.lastButtonTime.get? (jsTrim data)) < s.buttonDebounceMs
    · rw [handleIncomingData_debounced s data now hv hd]; exact ⟨rfl, rfl⟩
    · by_cases hs : (isSpamming s (jsTrim data) now).2 = true
      · rw [handleIncomingData_spam s data now hv hd hs]; exact ⟨rfl, rfl⟩
      · simp only [handleIncomingData, hv, hs]
        simp [hd, addToHistory, isSpamming]
  · rw [handleIncomingData_invalid s data now (by simpa using hv)]; exact ⟨rfl, rfl⟩

theorem runFilter_keeps_thresholds (ops : List FilterOp) (s : ArduinoManager) :
    (runFilter s ops).buttonDebounceMs = s.buttonDebounceMs ∧
      (runFilter s ops).maxPressesPerSecond = s.maxPressesPerSecond := by
  induction ops generalizing s with
  | nil => simp [runFilter]
  | cons op rest ih =>
    have hr : runFilter s (op :: rest) = runFilter (FilterOp.apply s op) rest := by
      simp [runFilter]
    rw [hr]
    cases op with
    | line data now =>
      have h1 := handleIncomingData_keeps_thresholds s data now
      have h2 := ih (FilterOp.apply s (FilterOp.line data now))
      simp only [FilterOp.apply] at h2 ⊢
      exact ⟨h2.1.trans h1.1, h2.2.trans h1.2⟩
    | reset now =>
      have h2 := ih (FilterOp.apply s (FilterOp.reset now))
      simp only [FilterOp.apply] at h2 ⊢
      exact ⟨h2.1, h2.2⟩

/-- The debounce baseline of every label after one line: `now` for the label
of an accepted line, unchanged otherwise. -/
theorem lastTime_after_line (s : ArduinoManager) (data : String) (now : Int)
    (label : String) :
    orZero ((handleIncomingData s data now).1.lastButtonTime.get? label) =
      if validateButton (jsTrim data) = true ∧
          ¬ now - orZero (s.lastButtonTime.get? (jsTrim data)) < s.buttonDebounceMs ∧
          (isSpamming s (jsTrim data) now).2 = false ∧ jsTrim data = label then now
      else orZero (s.lastButtonTime.get? label) := by
  by_cases hv : validateButton (jsTrim data) = true
  · by_cases hd : now - orZero (s.lastButtonTime.get? (jsTrim data)) < s.buttonDebounceMs
    · rw [handleIncomingData_debounced s data now hv hd]
      simp [hd, countBlocked]
    · by_cases hs : (isSpamming s (jsTrim data) now).2 = true
      · rw [handleIncomingData_spam s data now hv hd hs,
          if_neg (fun h => by rw [hs] at h; exact Bool.noConfusion h.2.2.1)]
        simp [countBlocked, isSpamming]
      · have hs2 : (isSpamming s (jsTrim data) now).2 = false := by simpa using hs
        obtain ⟨-, -, -, -, hl⟩ := handleIncomingData_accept s data now hv hd hs2
        rw [hl]
        by_cases hlab : jsTrim data = label
        · rw [if_pos ⟨hv, hd, hs2, hlab⟩, ← hlab, Dict.get?_set_self, orZero_some]
        · rw [if_neg (fun h => hlab h.2.2.2), Dict.get?_set_other _ _ _ _ hlab]
  · rw [handleIncomingData_invalid s data now (by simpa using hv)]
    simp [hv, countBlocked]

theorem separated_length_bound (gap lo hi : Int) (l : List Int)
    (hp : l.Pairwise (fun a b => a + gap ≤ b)) (hlo : ∀ h ∈ l, lo ≤ h)
    (hhi : ∀ h ∈ l, h ≤ hi) (hne : l ≠ []) : (l.length : Int) * gap ≤ hi - lo + gap := by
  induction l generalizing lo with
  | nil => exact absurd rfl hne
  | cons a t ih =>
    rw [List.pairwise_cons] at hp
    have ha1 := hlo a (List.mem_cons_self a t)
    have ha2 := hhi a (List.mem_cons_self a t)
    by_cases ht : t = []
    · subst ht
      simp only [List.length_singleton, Nat.cast_one, one_mul]
      omega
    · have := ih (a + gap) hp.2 (fun h hh => hp.1 h hh)
        (fun h hh => hhi h (List.mem_cons_of_mem a hh)) ht
      simp only [List.length_cons, Nat.cast_add, Nat.cast_one]
      nlinarith

theorem trimmed_bound_when_separated (s : ArduinoManager) (label : String) (now : Int)
    (hgap : 0 < s.buttonDebounceMs)
    (hsep : SeparatedUpTo s.buttonDebounceMs (orZero (s.lastButtonTime.get? label))
      (historyOf s label))
    (hpass : ¬ now - orZero (s.lastButtonTime.get? label) < s.buttonDebounceMs) :
    ((trimmedHistory s label now).length : Int) * s.buttonDebounceMs ≤ 1000 := by
  have hsuf := List.dropWhile_suffix (l := historyOf s label)
    (fun t => decide (now - t > 1000))
  have hsorted : (historyOf s label).Pairwise (fun a b => a ≤ b) :=
    hsep.1.imp (fun {a b} hab => by omega)
  have hwin := dropWhile_old_window now (historyOf s label) hsorted
  by_cases hne : trimmedHistory s label now = []
  · rw [hne]; simp
  · have := separated_length_bound s.buttonDebounceMs (now - 1000)
      (now - s.buttonDebounceMs) (trimmedHistory s label now)
      (hsep.1.sublist hsuf.sublist)
      (fun h hh => by have := hwin h hh; omega)
      (fun h hh => by have := hsep.2 h (hsuf.subset hh); omega) hne
    omega

theorem no_spam_when_separated (s : ArduinoManager) (label : String) (now : Int)
    (hgap : 0 < s.buttonDebounceMs)
    (hDT : s.buttonDebounceMs * s.maxPressesPerSecond > 1000)
    (hsep : SeparatedUpTo s.buttonDebounceMs (orZero (s.lastButtonTime.get? label))
      (historyOf s label))
    (hpass : ¬ now - orZero (s.lastButtonTime.get? label) < s.buttonDebounceMs) :
    ¬ ((trimmedHistory s label now).length : Int) ≥ s.maxPressesPerSecond := by
  have hb := trimmed_bound_when_separated s label now hgap hsep hpass
  intro hge
  nlinarith

theorem handleIncomingData_keeps_separated (s : ArduinoManager) (data : String) (now : Int)
    (hgap : 0 < s.buttonDebounceMs)
    (hDT : s.buttonDebounceMs * s.maxPressesPerSecond > 1000)
    (h : ∀ label, SeparatedUpTo s.buttonDebounceMs (orZero (s.lastButtonTime.get? label))
      (historyOf s label)) :
    ∀ label, SeparatedUpTo s.buttonDebounceMs
      (orZero ((handleIncomingData s data now).1.lastButtonTime.get? label))
      (historyOf (handleIncomingData s data now).1 label) := by
  intro label
  rw [historyOf_after_line, lastTime_after_line]
  by_cases hc : validateButton (jsTrim data) = true ∧
      ¬ now - orZero (s.lastButtonTime.get? (jsTrim data)) < s.buttonDebounceMs ∧
      jsTrim data = label
  · obtain ⟨hv, hd, hl⟩ := hc
    subst hl
    have hns := no_spam_when_separated s (jsTrim data) now hgap hDT (h _) hd
    have hs2 : (isSpamming s (jsTrim data) now).2 = false := by
      rw [isSpamming_snd]; simpa using hns
    rw [if_pos ⟨hv, hd, hs2, rfl⟩, if_pos ⟨hv, hd, rfl⟩, if_neg hns]
    have hsuf := List.dropWhile_suffix (l := historyOf s (jsTrim data))
      (fun t => decide (now - t > 1000))
    have hle : ∀ x ∈ trimmedHistory s (jsTrim data) now, x + s.buttonDebounceMs ≤ now := by
      intro x hx
      have := (h (jsTrim data)).2 x (hsuf.subset hx)
      omega
    have hpair : (trimmedHistory s (jsTrim data) now ++ [now]).Pairwise
        (fun a b => a + s.buttonDebounceMs ≤ b) := by
      rw [List.pairwise_append]
      refine ⟨(h (jsTrim data)).1.sublist hsuf.sublist, List.pairwise_singleton _ _,
        fun a ha b hb => ?_⟩
      simp only [List.mem_singleton] at hb
      subst hb
      exact hle a ha
    have hsub : (capHistory (trimmedHistory s (jsTrim data) now ++ [now])).Sublist
        (trimmedHistory s (jsTrim data) now ++ [now]) := by
      unfold capHistory
      split_ifs
      · exact List.drop_sublist 1 _
      · exact List.Sublist.refl _
    refine ⟨hpair.sublist hsub, fun x hx => ?_⟩
    rcases List.mem_append.1 (hsub.subset hx) with hx | hx
    · have := hle x hx
      omega
    · simp only [List.mem_singleton] at hx
      omega
  · rw [if_neg hc, if_neg (fun hc2 => hc ⟨hc2.1, hc2.2.1, hc2.2.2.2⟩)]
    exact h label

theorem runFilter_keeps_separated (ops : List FilterOp) (s : ArduinoManager)
    (hgap : 0 < s.buttonDebounceMs)
    (hDT : s.buttonDebounceMs * s.maxPressesPerSecond > 1000)
    (h : ∀ label, SeparatedUpTo s.buttonDebounceMs (orZero (s.lastButtonTime.get? label))
      (historyOf s label)) :
    ∀ label, SeparatedUpTo s.buttonDebounceMs
      (orZero ((runFilter s ops).lastButtonTime.get? label))
      (historyOf (runFilter s ops) label) := by
  induction ops generalizing s with
  | nil => simpa [runFilter] using h
  | cons op rest ih =>
    have hr : runFilter s (op :: rest) = runFilter (FilterOp.apply s op) rest := by
      simp [runFilter]
    rw [hr]
    cases op with
    | line data now =>
      have hk := handleIncomingData_keeps_thresholds s data now
      have hstep := handleIncomingData_keeps_separated s data now hgap hDT h
      have := ih (FilterOp.apply s (FilterOp.line data now))
        (by simp only [FilterOp.apply]; rw [hk.1]; exact hgap)
        (by simp only [FilterOp.apply]; rw [hk.1, hk.2]; exact hDT)
        (by simp only [FilterOp.apply]; rw [hk.1]; exact hstep)
      simpa only [FilterOp.apply, hk.1] using this
    | reset now =>
      exact ih (FilterOp.apply s (FilterOp.reset now)) hgap hDT h

theorem fresh_is_separated (s : ArduinoManager) (hfresh : IsFreshFilter s) (label : String) :
    SeparatedUpTo s.buttonDebounceMs (orZero (s.lastButtonTime.get? label))
      (historyOf s label) := by
  have : historyOf s label = [] := by simp [historyOf, hfresh.2.1, Dict.get?]
  rw [this]
  simp [SeparatedUpTo]

theorem no_status_without_spam (s : ArduinoManager) (data : String) (now : Int)
    (h : validateButton (jsTrim data) = true →
      ¬ now - orZero (s.lastButtonTime.get? (jsTrim data)) < s.buttonDebounceMs →
      (isSpamming s (jsTrim data) now).2 = false) :
    statusMessages (handleIncomingData s data now).2 = [] := by
  by_cases hv : validateButton (jsTrim data) = true
  · by_cases hd : now - orZero (s.lastButtonTime.get? (jsTrim data)) < s.buttonDebounceMs
    · rw [handleIncomingData_debounced s data now hv hd]; rfl
    · rw [(handleIncomingData_accept s data now hv hd (h hv hd)).1]; rfl
  · rw [handleIncomingData_invalid s data now (by simpa using hv)]; rfl

theorem statusMessages_append (a b : List Out) :
    statusMessages (a ++ b) = statusMessages a ++ statusMessages b := by
  simp [statusMessages]

theorem run_filter_ops_no_status (ops : List FilterOp) (s : ArduinoManager)
    (hgap : 0 < s.buttonDebounceMs)
    (hDT : s.buttonDebounceMs * s.maxPressesPerSecond > 1000)
    (h : ∀ label, SeparatedUpTo s.buttonDebounceMs (orZero (s.lastButtonTime.get? label))
      (historyOf s label)) :
    statusMessages (run s (ops.map FilterOp.toEvent)).2 = [] := by
  induction ops generalizing s with
  | nil => simp [run, statusMessages]
  | cons op rest ih =>
    cases op with
    | line data now =>
      have hk := handleIncomingData_keeps_thresholds s data now
      have hstep := handleIncomingData_keeps_separated s data now hgap hDT h
      have hnow := no_status_without_spam s data now (fun _ hd => by
        rw [isSpamming_snd]
        simpa using no_spam_when_separated s (jsTrim data) now hgap hDT (h _) hd)
      have hrest := ih (handleIncomingData s data now).1 (by rw [hk.1]; exact hgap)
        (by rw [hk.1, hk.2]; exact hDT) (by rw [hk.1]; exact hstep)
      simp only [List.map_cons, FilterOp.toEvent, run, applyEvent, statusMessages_append,
        hnow, hrest, List.append_nil]
    | reset now =>
      have hrest := ih (resetStats s now) hgap hDT h
      simp only [List.map_cons, FilterOp.toEvent, run, applyEvent, statusMessages_append,
        hrest, List.append_nil]
      rfl

/-- C20: for a debounce interval `D` and a threshold `T` with `D * T > 1000`
(the defaults 200 and 10 among them), in every state reached from a fresh
filter by any sequence of lines and resets (timestamps in any order, so the
non-decreasing ones too), every call of `isSpamming` that
`handleIncomingData` makes returns `false`: once the debounce check has
passed, the trimmed history of the label holds at most `1000 / D` entries,
fewer than `T`. So no line is ever spam-blocked and no status is ever sent
by the filter, neither by the next line nor anywhere in the run. -/
theorem spam_branch_unreachable (s : ArduinoManager) (D T : Nat) (ops : List FilterOp)
    (data : String) (now : Int) (hfresh : IsFreshFilter s)
    (hD : s.buttonDebounceMs = D) (hT : s.maxPressesPerSecond = T) (hDT : D * T > 1000) :
    (validateButton (jsTrim data) = true →
        ¬ now - orZero ((runFilter s ops).lastButtonTime.get? (jsTrim data)) < D →
        (isSpamming (runFilter s ops) (jsTrim data) now).2 = false ∧
        (trimmedHistory (runFilter s ops) (jsTrim data) now).length ≤ 1000 / D ∧
        (trimmedHistory (runFilter s ops) (jsTrim data) now).length < T) ∧
      statusMessages (handleIncomingData (runFilter s ops) data now).2 = [] ∧
      statusMessages (run s (ops.map FilterOp.toEvent)).2 = [] := by
  have hDpos : 0 < D := by
    rcases Nat.eq_zero_or_pos D with h0 | h0
    · subst h0; simp at hDT
    · exact h0
  have hgap : 0 < s.buttonDebounceMs := by rw [hD]; exact_mod_cast hDpos
  have hDT2 : s.buttonDebounceMs * s.maxPressesPerSecond > 1000 := by
    rw [hD, hT]; exact_mod_cast hDT
  have hk := runFilter_keeps_thresholds ops s
  have hsep := runFilter_keeps_separated ops s hgap hDT2 (fresh_is_separated s hfresh)
  have hgap' : 0 < (runFilter s ops).buttonDebounceMs := by rw [hk.1]; exact hgap
  have hDT' : (runFilter s ops).buttonDebounceMs * (runFilter s ops).maxPressesPerSecond
      > 1000 := by rw [hk.1, hk.2]; exact hDT2
  have hsep' : ∀ label, SeparatedUpTo (runFilter s ops).buttonDebounceMs
      (orZero ((runFilter s ops).lastButtonTime.get? label))
      (historyOf (runFilter s ops) label) := by
    intro label; rw [hk.1]; exact hsep label
  have key : validateButton (jsTrim data) = true →
      ¬ now - orZero ((runFilter s ops).lastButtonTime.get? (jsTrim data)) <
        (runFilter s ops).buttonDebounceMs →
      (isSpamming (runFilter s ops) (jsTrim data) now).2 = false := by
    intro _ hd
    rw [isSpamming_snd]
    simpa using no_spam_when_separated _ (jsTrim data) now hgap' hDT' (hsep' _) hd
  refine ⟨fun hv hd => ?_, no_status_without_spam _ data now key,
    run_filter_ops_no_status ops s hgap hDT2 (fresh_is_separated s hfresh)⟩
  have hd' : ¬ now - orZero ((runFilter s ops).lastButtonTime.get? (jsTrim data)) <
      (runFilter s ops).buttonDebounceMs := by rw [hk.1, hD]; exact hd
  have hb := trimmed_bound_when_separated _ (jsTrim data) now hgap' (hsep' _) hd'
  have hns := no_spam_when_separated _ (jsTrim data) now hgap' hDT' (hsep' _) hd'
  rw [hk.1, hD] at hb
  rw [hk.2, hT] at hns
  refine ⟨key hv hd', ?_, ?_⟩
  · rw [Nat.le_div_iff_mul_le hDpos]
    exact_mod_cast hb
  · have : ((trimmedHistory (runFilter s ops) (jsTrim data) now).length : Int) < T := by
      omega
    exact_mod_cast this

/-- C20 on the shipped configuration (`D = 200`, `T = 10`) and the sample
sequence of calls, for a further line `1` arriving 200 ms after the last. -/
theorem spam_branch_unreachable_witness :
    (validateButton (jsTrim "1") = true →
        ¬ (sampleNow + 1900) - orZero ((runFilter
          (ArduinoManager.constructor shippedConfig sampleNow) sampleOps).lastButtonTime.get?
            (jsTrim "1")) < (200 : Nat) →
        (isSpamming (runFilter (ArduinoManager.constructor shippedConfig sampleNow) sampleOps)
          (jsTrim "1") (sampleNow + 1900)).2 = false ∧
        (trimmedHistory (runFilter (ArduinoManager.constructor shippedConfig sampleNow)
          sampleOps) (jsTrim "1") (sampleNow + 1900)).length ≤ 1000 / 200 ∧
        (trimmedHistory (runFilter (ArduinoManager.constructor shippedConfig sampleNow)
          sampleOps) (jsTrim "1") (sampleNow + 1900)).length < 10) ∧
      statusMessages (handleIncomingData (runFilter
        (ArduinoManager.constructor shippedConfig sampleNow) sampleOps) "1"
          (sampleNow + 1900)).2 = [] ∧
      statusMessages (run (ArduinoManager.constructor shippedConfig sampleNow)
        (sampleOps.map FilterOp.toEvent)).2 = [] :=
  spam_branch_unreachable (ArduinoManager.constructor shippedConfig sampleNow) 200 10
    sampleOps "1" (sampleNow + 1900) (by decide) (by decide) (by decide) (by decide)

/-! ## Bursts -/

theorem trimmedHistory_eq_self (s : ArduinoManager) (label : String) (now : Int)
    (hwin : ∀ h ∈ historyOf s label, now - h ≤ 1000) :
    trimmedHistory s label now = historyOf s label := by
  unfold trimmedHistory
  cases hl : historyOf s label with
  | nil => rfl
  | cons a t =>
    have := hwin a (by rw [hl]; exact List.mem_cons_self a t)
    simp [List.dropWhile_cons]
    omega

theorem buttonEvents_append (a b : List Out) :
    buttonEvents (a ++ b) = buttonEvents a ++ buttonEvents b := by
  simp [buttonEvents]

theorem burst_step_accept (s : ArduinoManager) (label : String) (t : Int)
    (hlabel : validateButton label = true)
    (hpass : orZero (s.lastButtonTime.get? label) + s.buttonDebounceMs ≤ t)
    (hwin : ∀ h ∈ historyOf s label, t - h ≤ 1000)
    (hlt : ((historyOf s label).length : Int) < s.maxPressesPerSecond)
    (hcap : (historyOf s label).length < 100) :
    (handleIncomingData s label t).2 =
        [Out.data label, Out.emit "button-pressed" (some label)] ∧
      (handleIncomingData s label t).1.stats.totalPresses = s.stats.totalPresses + 1 ∧
      (handleIncomingData s label t).1.stats.blockedPresses = s.stats.blockedPresses ∧
      orZeroNat ((handleIncomingData s label t).1.stats.pressesPerButton.get? label) =
        orZeroNat (s.stats.pressesPerButton.get? label) + 1 ∧
      historyOf (handleIncomingData s label t).1 label = historyOf s label ++ [t] ∧
      orZero ((handleIncomingData s label t).1.lastButtonTime.get? label) = t := by
  have htrim := jsTrim_of_valid label hlabel
  have heq := trimmedHistory_eq_self s label t hwin
  have hd : ¬ t - orZero (s.lastButtonTime.get? (jsTrim label)) < s.buttonDebounceMs := by
    rw [htrim]; omega
  have hns : ¬ ((trimmedHistory s label t).length : Int) ≥ s.maxPressesPerSecond := by
    rw [heq]; omega
  have hs2 : (isSpamming s (jsTrim label) t).2 = false := by
    rw [htrim, isSpamming_snd]; simpa using hns
  obtain ⟨ho, htot, hblk, hppb, -⟩ :=
    handleIncomingData_accept s label t (by rw [htrim]; exact hlabel) hd hs2
  rw [htrim] at ho hppb hd hs2
  refine ⟨ho, htot, hblk, ?_, ?_, ?_⟩
  · rw [hppb, Dict.get?_set_self]
    simp [orZeroNat]
  · rw [historyOf_after_line, htrim, if_pos ⟨hlabel, hd, rfl⟩, if_neg hns, heq]
    unfold capHistory
    rw [if_neg]
    simp only [List.length_append, List.length_singleton]
    omega
  · rw [lastTime_after_line, htrim, if_pos ⟨hlabel, hd, hs2, rfl⟩]

theorem burst_step_spam (s : ArduinoManager) (label : String) (t : Int)
    (hlabel : validateButton label = true)
    (hpass : orZero (s.lastButtonTime.get? label) + s.buttonDebounceMs ≤ t)
    (hwin : ∀ h ∈ historyOf s label, t - h ≤ 1000)
    (hge : ((historyOf s label).length : Int) ≥ s.maxPressesPerSecond) :
    (handleIncomingData s label t).2 = [Out.status (spamStatus label)] ∧
      (handleIncomingData s label t).1.stats.totalPresses = s.stats.totalPresses ∧
      (handleIncomingData s label t).1.stats.blockedPresses = s.stats.blockedPresses + 1 ∧
      (handleIncomingData s label t).1.stats.pressesPerButton = s.stats.pressesPerButton ∧
      historyOf (handleIncomingData s label t).1 label = historyOf s label ∧
      orZero ((handleIncomingData s label t).1.lastButtonTime.get? label) =
        orZero (s.lastButtonTime.get? label) := by
  have htrim := jsTrim_of_valid label hlabel
  have heq := trimmedHistory_eq_self s label t hwin
  have hd : ¬ t - orZero (s.lastButtonTime.get? (jsTrim label)) < s.buttonDebounceMs := by
    rw [htrim]; omega
  have hsp : ((trimmedHistory s label t).length : Int) ≥ s.maxPressesPerSecond := by
    rw [heq]; exact hge
  have hs2 : (isSpamming s (jsTrim label) t).2 = true := by
    rw [htrim, isSpamming_snd]; simpa using hsp
  have hh := historyOf_after_line s label t label
  have hl := lastTime_after_line s label t label
  rw [htrim] at hd hs2
  rw [htrim, if_pos ⟨hlabel, hd, rfl⟩, if_pos hsp, heq] at hh
  rw [htrim, if_neg (fun h => by rw [hs2] at h; exact Bool.noConfusion h.2.2.1)] at hl
  refine ⟨?_, ?_, ?_, ?_, hh, hl⟩ <;>
    · rw [handleIncomingData_spam s label t (by rw [htrim]; exact hlabel)
        (by rw [htrim]; exact hd) (by rw [htrim]; exact hs2)]
      simp [htrim, countBlocked, isSpamming]

theorem feedLines_cons (s : ArduinoManager) (data : String) (t : Int) (rest : List Int) :
    feedLines s data (t :: rest) =
      ((feedLines (handleIncomingData s data t).1 data rest).1,
        (handleIncomingData s data t).2 ++
          (feedLines (handleIncomingData s data t).1 data rest).2) := by
  simp [feedLines, run, applyEvent]

theorem chain_skip (gap last t : Int) (rest : List Int) (hgap : 0 ≤ gap)
    (h : List.Chain (fun a b => a + gap ≤ b) last (t :: rest)) :
    List.Chain (fun a b => a + gap ≤ b) last rest := by
  rw [List.chain_cons] at h
  cases rest with
  | nil => exact List.Chain.nil
  | cons t2 r =>
    rw [List.chain_cons] at h ⊢
    exact ⟨by omega, h.2.2⟩

/-- A burst of one label whose lines all pass the debounce check and lie
within one second of each other and of the history: the first lines are
accepted until the history holds `T` timestamps, every further line is
dropped as spam with a warning of its own. -/
theorem feedLines_burst (label : String) (hlabel : validateButton label = true) (T : Nat)
    (hT100 : T ≤ 100) (ts : List Int) (s : ArduinoManager)
    (hT : s.maxPressesPerSecond = T) (hD : 0 ≤ s.buttonDebounceMs)
    (hchain : List.Chain (fun a b => a + s.buttonDebounceMs ≤ b)
      (orZero (s.lastButtonTime.get? label)) ts)
    (hwinH : ∀ h ∈ historyOf s label, ∀ t ∈ ts, t - h ≤ 1000)
    (hwin : ∀ a ∈ ts, ∀ b ∈ ts, b - a ≤ 1000)
    (hlen : (historyOf s label).length ≤ T) :
    (feedLines s label ts).1.stats.totalPresses =
        s.stats.totalPresses + min ts.length (T - (historyOf s label).length) ∧
      (feedLines s label ts).1.stats.blockedPresses =
        s.stats.blockedPresses + (ts.length - min ts.length (T - (historyOf s label).length)) ∧
      orZeroNat ((feedLines s label ts).1.stats.pressesPerButton.get? label) =
        orZeroNat (s.stats.pressesPerButton.get? label) +
          min ts.length (T - (historyOf s label).length) ∧
      buttonEvents (feedLines s label ts).2 =
        List.replicate (min ts.length (T - (historyOf s label).length))
          (Out.emit "button-pressed" (some label)) ∧
      statusMessages (feedLines s label ts).2 =
        List.replicate (ts.length - min ts.length (T - (historyOf s label).length))
          (Out.status (spamStatus label)) := by
  induction ts generalizing s with
  | nil => simp [feedLines, run, buttonEvents, statusMessages]
  | cons t rest ih =>
    have hk := handleIncomingData_keeps_thresholds s label t
    have hpass : orZero (s.lastButtonTime.get? label) + s.buttonDebounceMs ≤ t :=
      (List.chain_cons.1 hchain).1
    have hwt : ∀ h ∈ historyOf s label, t - h ≤ 1000 :=
      fun h hh => hwinH h hh t (List.mem_cons_self t rest)
    rw [feedLines_cons]
    by_cases hlt : (historyOf s label).length < T
    · obtain ⟨ho, htot, hblk, hppb, hhist, hlast⟩ :=
        burst_step_accept s label t hlabel hpass hwt (by rw [hT]; exact_mod_cast hlt)
          (by omega)
      have := ih (handleIncomingData s label t).1 (by rw [hk.2]; exact hT)
        (by rw [hk.1]; exact hD)
        (by rw [hk.1, hlast]; exact (List.chain_cons.1 hchain).2)
        (by
          intro h hh x hx
          rw [hhist] at hh
          rcases List.mem_append.1 hh with hh | hh
          · exact hwinH h hh x (List.mem_cons_of_mem t hx)
          · simp only [List.mem_singleton] at hh
            subst hh
            exact hwin h (List.mem_cons_self h rest) x (List.mem_cons_of_mem h hx))
        (fun a ha b hb => hwin a (List.mem_cons_of_mem t ha) b (List.mem_cons_of_mem t hb))
        (by rw [hhist]; simp only [List.length_append, List.length_singleton]; omega)
      rw [hhist] at this
      simp only [List.length_append, List.length_singleton, List.length_cons, List.length_nil,
        Nat.zero_add] at this ⊢
      obtain ⟨i1, i2, i3, i4, i5⟩ := this
      have hmin : min (rest.length + 1) (T - (historyOf s label).length) =
          min rest.length (T - ((historyOf s label).length + 1)) + 1 := by omega
      rw [i1, i2, i3, buttonEvents_append, statusMessages_append, i4, i5, ho, htot, hblk, hppb,
        hmin]
      refine ⟨by omega, by omega, by omega, ?_, ?_⟩
      · simp [buttonEvents, List.replicate_succ]
      · have : rest.length + 1 - (min rest.length (T - ((historyOf s label).length + 1)) + 1)
            = rest.length - min rest.length (T - ((historyOf s label).length + 1)) := by omega
        rw [this]
        simp [statusMessages]
    · obtain ⟨ho, htot, hblk, hppb, hhist, hlast⟩ :=
        burst_step_spam s label t hlabel hpass hwt (by rw [hT]; exact_mod_cast (by omega))
      have := ih (handleIncomingData s label t).1 (by rw [hk.2]; exact hT)
        (by rw [hk.1]; exact hD)
        (by rw [hk.1, hlast]; exact chain_skip _ _ t rest hD hchain)
        (by
          intro h hh x hx
          rw [hhist] at hh
          exact hwinH h hh x (List.mem_cons_of_mem t hx))
        (fun a ha b hb => hwin a (List.mem_cons_of_mem t ha) b (List.mem_cons_of_mem t hb))
        (by rw [hhist]; exact hlen)
      rw [hhist] at this
      simp only [List.length_cons] at this ⊢
      obtain ⟨i1, i2, i3, i4, i5⟩ := this
      have hz : T - (historyOf s label).length = 0 := by omega
      rw [hz] at i1 i2 i3 i4 i5 ⊢
      simp only [Nat.min_zero, Nat.zero_min, Nat.sub_zero, Nat.add_zero,
        List.replicate_zero] at i1 i2 i3 i4 i5 ⊢
      rw [i1, i2, i3, buttonEvents_append, statusMessages_append, i4, i5, ho, htot, hblk, hppb]
      refine ⟨rfl, by omega, rfl, ?_, ?_⟩
      · simp [buttonEvents]
      · simp [statusMessages, List.replicate_succ]

/-- C16, as stated, fails, in two ways. With the shipped configuration
(debounce 200 ms, threshold 10), twelve lines `3` arriving 40 ms apart, all
within 440 ms, give three events and nine blocked presses, all by the
debounce check, and no spam warning. And with the debounce interval at 1 ms,
where the same twelve lines do give ten events and two blocked presses, the
two lines dropped by the spam filter send two warnings, one each. -/
theorem burst_blocked_by_debounce :
    IsFreshFilter (ArduinoManager.constructor shippedConfig sampleNow) ∧
    (ArduinoManager.constructor shippedConfig sampleNow).maxPressesPerSecond = 10 ∧
    burstTimes.length = 12 ∧ (∀ a ∈ burstTimes, ∀ b ∈ burstTimes, b - a ≤ 500) ∧
    (feedLines (ArduinoManager.constructor shippedConfig sampleNow) "3"
      burstTimes).1.stats.totalPresses = 3 ∧
    (feedLines (ArduinoManager.constructor shippedConfig sampleNow) "3"
      burstTimes).1.stats.blockedPresses = 9 ∧
    (buttonEvents (feedLines (ArduinoManager.constructor shippedConfig sampleNow) "3"
      burstTimes).2).length = 3 ∧
    statusMessages (feedLines (ArduinoManager.constructor shippedConfig sampleNow) "3"
      burstTimes).2 = [] ∧
    (ArduinoManager.constructor fastConfig sampleNow).maxPressesPerSecond = 10 ∧
    (feedLines (ArduinoManager.constructor fastConfig sampleNow) "3"
      burstTimes).1.stats.totalPresses = 10 ∧
    (feedLines (ArduinoManager.constructor fastConfig sampleNow) "3"
      burstTimes).1.stats.blockedPresses = 2 ∧
    statusMessages (feedLines (ArduinoManager.constructor fastConfig sampleNow) "3"
      burstTimes).2 = [Out.status (spamStatus "3"), Out.status (spamStatus "3")] := by
  decide

/-- C16, amended: from a fresh filter with threshold 10 and a debounce
interval `D ≥ 0`, twelve lines `3` within one 500 ms span, the first at a time
`≥ D` and each at least `D` after the one before (so none is debounced), give
exactly ten `button-pressed` events (`totalPresses = 10`,
`pressesPerButton["3"] = 10`), exactly two blocked presses, and two spam
status warnings, one for each line dropped. -/
theorem burst_of_twelve (s : ArduinoManager) (ts : List Int) (hfresh : IsFreshFilter s)
    (hT : s.maxPressesPerSecond = 10) (hD : 0 ≤ s.buttonDebounceMs)
    (hlen : ts.length = 12)
    (hfirst : ∀ t ∈ ts.head?, s.buttonDebounceMs ≤ t)
    (hgaps : ts.Chain' (fun a b => a + s.buttonDebounceMs ≤ b))
    (hspan : ∀ a ∈ ts, ∀ b ∈ ts, b - a ≤ 500) :
    buttonEvents (feedLines s "3" ts).2 =
        List.replicate 10 (Out.emit "button-pressed" (some "3")) ∧
      (feedLines s "3" ts).1.stats.totalPresses = 10 ∧
      (feedLines s "3" ts).1.stats.pressesPerButton.get? "3" = some 10 ∧
      (feedLines s "3" ts).1.stats.blockedPresses = 2 ∧
      statusMessages (feedLines s "3" ts).2 =
        [Out.status (spamStatus "3"), Out.status (spamStatus "3")] := by
  obtain ⟨hlbt, hhist, htot, hblk, hppb⟩ := hfresh
  have hH : historyOf s "3" = [] := by simp [historyOf, hhist, Dict.get?]
  have hlast : orZero (s.lastButtonTime.get? "3") = 0 := by simp [hlbt, Dict.get?, orZero]
  have hchain : List.Chain (fun a b => a + s.buttonDebounceMs ≤ b)
      (orZero (s.lastButtonTime.get? "3")) ts := by
    rw [hlast]
    cases ts with
    | nil => exact List.Chain.nil
    | cons t rest =>
      rw [List.chain_cons]
      refine ⟨?_, hgaps⟩
      have := hfirst t (by simp)
      omega
  obtain ⟨h1, h2, h3, h4, h5⟩ := feedLines_burst "3" (by decide) 10 (by decide) ts s
    (by rw [hT]; rfl) hD hchain (by rw [hH]; simp)
    (fun a ha b hb => by have := hspan a ha b hb; omega) (by rw [hH]; simp)
  rw [hH, hlen] at h1 h2 h3 h4 h5
  simp only [List.length_nil, Nat.sub_zero] at h1 h2 h3 h4 h5
  rw [htot] at h1
  rw [hblk] at h2
  rw [hppb] at h3
  refine ⟨h4, by simpa using h1, ?_, by simpa using h2, by simpa using h5⟩
  have h3' : orZeroNat ((feedLines s "3" ts).1.stats.pressesPerButton.get? "3") = 10 := by
    simpa [Dict.get?, orZeroNat] using h3
  cases hg : (feedLines s "3" ts).1.stats.pressesPerButton.get? "3" with
  | none => rw [hg] at h3'; simp [orZeroNat] at h3'
  | some v =>
    rw [hg] at h3'
    by_cases hv : v = 0
    · simp [orZeroNat, hv] at h3'
    · simp [orZeroNat, hv] at h3'
      rw [h3']

/-- C16, amended, with the debounce interval at 1 ms and twelve lines 40 ms
apart. -/
theorem burst_of_twelve_witness :
    buttonEvents (feedLines (ArduinoManager.constructor fastConfig sampleNow) "3"
        burstTimes).2 = List.replicate 10 (Out.emit "button-pressed" (some "3")) ∧
      (feedLines (ArduinoManager.constructor fastConfig sampleNow) "3"
        burstTimes).1.stats.totalPresses = 10 ∧
      (feedLines (ArduinoManager.constructor fastConfig sampleNow) "3"
        burstTimes).1.stats.pressesPerButton.get? "3" = some 10 ∧
      (feedLines (ArduinoManager.constructor fastConfig sampleNow) "3"
        burstTimes).1.stats.blockedPresses = 2 ∧
      statusMessages (feedLines (ArduinoManager.constructor fastConfig sampleNow) "3"
        burstTimes).2 = [Out.status (spamStatus "3"), Out.status (spamStatus "3")] :=
  burst_of_twelve (ArduinoManager.constructor fastConfig sampleNow) burstTimes (by decide)
    (by decide) (by decide) (by decide) (by decide)
    (by simp [burstTimes, List.range, List.range.loop, ArduinoManager.constructor, fastConfig,
      orDefault, sampleNow])
    (by decide)

/-! ## Device enumerator -/

theorem head?_filter_eq_find? {α : Type} (p : α → Bool) (l : List α) :
    (l.filter p).head? = l.find? p := by
  induction l with
  | nil => rfl
  | cons a t ih =>
    by_cases h : p a = true
    · simp [List.filter_cons, List.find?_cons, h]
    · simp [List.filter_cons, List.find?_cons, h, ih]

/-- C17: for every list of scanned devices, `autoSelectDevice` returns the
first device, in the order of the list, whose `isArduino` flag is true; when
no device has the flag it returns the first device of the list; when the list
is empty it returns `null`. On the two listed ports with vendor ids `9999`
and `2341`, scanned with `2341` in the allow-list, it returns the descriptor
of the second. -/
theorem autoSelectDevice_picks_first_candidate (dm : DeviceManager) :
    (∀ d, dm.availableDevices.find? (fun x => x.isArduino) = some d →
        (autoSelectDevice dm).2.1 = some d) ∧
      (dm.availableDevices.find? (fun x => x.isArduino) = none →
        (autoSelectDevice dm).2.1 = dm.availableDevices.head?) ∧
      (dm.availableDevices = [] → (autoSelectDevice dm).2.1 = none) ∧
      "2341" ∈ arduinoVendorIds ∧
      (scanDevices asciiLowerCase DeviceManager.constructor (some twoPorts)).2.map
        (fun d => (d.vendorId, d.isArduino)) = [("9999", false), ("2341", true)] ∧
      (autoSelectDevice (scanDevices asciiLowerCase DeviceManager.constructor
        (some twoPorts)).1).2.1 =
        (scanDevices asciiLowerCase DeviceManager.constructor (some twoPorts)).2.get? 1 := by
  refine ⟨fun d hd => ?_, fun hnone => ?_, fun hnil => ?_, by decide, by decide, by decide⟩
  · rw [← head?_filter_eq_find?] at hd
    unfold autoSelectDevice
    cases hf : dm.availableDevices.filter (fun x => x.isArduino) with
    | nil => rw [hf] at hd; simp at hd
    | cons a t =>
      rw [hf] at hd
      simp only [List.head?_cons, Option.some.injEq] at hd
      subst hd
      rfl
  · rw [← head?_filter_eq_find?] at hnone
    unfold autoSelectDevice
    cases hf : dm.availableDevices.filter (fun x => x.isArduino) with
    | nil =>
      cases hl : dm.availableDevices with
      | nil => rfl
      | cons a t => rfl
    | cons a t => rw [hf] at hnone; simp at hnone
  · unfold autoSelectDevice
    rw [hnil]
    rfl

/-- C18, as stated, fails for the COM rule: the port `COM3` with no vendor id
and no manufacturer matches the COM-port pattern, and the enumerator marks it
as a non-candidate (`isLikelyArduino` is false, `isArduino` is false in the
descriptor); only the legacy `findPort` selects it. -/
theorem com_port_is_not_a_candidate :
    comPortPattern bareComPort.path = true ∧
    isLikelyArduino asciiLowerCase bareComPort = false ∧
    (scanDevices asciiLowerCase DeviceManager.constructor (some [bareComPort])).2.map
      (fun d => d.isArduino) = [false] ∧
    findPort asciiLowerCase shippedScanConfig (some [bareComPort]) = some "COM3" := by
  decide

theorem jsIncludes_iff (text keyword : String) :
    jsIncludes text keyword = true ↔ keyword.data <:+: text.data := by
  simp only [jsIncludes, List.any_eq_true, List.mem_tails, List.isPrefixOf_iff_prefix]
  rw [List.infix_iff_prefix_suffix]
  constructor
  · rintro ⟨t, ht, hp⟩
    exact ⟨t, hp, ht⟩
  · rintro ⟨t, hp, ht⟩
    exact ⟨t, ht, hp⟩

theorem includesId_iff (ids : List String) (id : Option String) :
    includesId ids id = true ↔ ∃ v, id = some v ∧ v ∈ ids := by
  cases id with
  | none => simp [includesId]
  | some v => simp [includesId]

/-- C18, amended: for every enumerated port, the enumerator marks it as a
candidate (`isLikelyArduino` returns true, `isArduino` is true in the
descriptor) exactly when its vendor id is in the built-in allow-list, or its
manufacturer string or its path, lower-cased, contains one of the built-in
keywords; both lists hold the values of `config.arduino.vendorIds` and
`config.arduino.portKeywords`. The COM-port pattern is no rule of the
enumerator: it belongs to the legacy `findPort` alone, which returns the path
of the first listed port on which one of the three rules holds. -/
theorem isLikelyArduino_rules (toLowerCase : String → String) (port : PortInfo) :
    (isLikelyArduino toLowerCase port = true ↔
        (∃ v, port.vendorId = some v ∧ v ∈ arduinoVendorIds) ∨
        (∃ keyword ∈ arduinoKeywords,
          keyword.data <:+: (toLowerCase (orString port.manufacturer "")).data ∨
          keyword.data <:+: (toLowerCase port.path).data)) ∧
      (describePort toLowerCase port).isArduino = isLikelyArduino toLowerCase port ∧
      (∀ v, v ∈ arduinoVendorIds ↔ v ∈ shippedScanConfig.vendorIds) ∧
      arduinoKeywords = shippedScanConfig.portKeywords ∧
      (∀ cfg : ScanConfig, findPortMatches toLowerCase cfg port = true ↔
        (∃ v, port.vendorId = some v ∧ v ∈ cfg.vendorIds) ∨
        (∃ keyword ∈ cfg.portKeywords,
          keyword.data <:+: (toLowerCase (port.manufacturer.getD "")).data ∨
          keyword.data <:+: (toLowerCase port.path).data) ∨
        comPortPattern port.path = true) ∧
      (∀ (cfg : ScanConfig) (ports : List PortInfo),
        findPort toLowerCase cfg (some ports) =
          (ports.find? (findPortMatches toLowerCase cfg)).map (fun info => info.path)) := by
  refine ⟨?_, rfl, fun v => ?_, by decide, fun cfg => ?_, fun cfg ports => ?_⟩
  · unfold isLikelyArduino
    by_cases hv : includesId arduinoVendorIds port.vendorId = true
    · simp only [hv, if_true, true_iff]
      exact Or.inl ((includesId_iff _ _).1 hv)
    · simp only [hv, if_false, Bool.false_eq_true, List.any_eq_true, Bool.or_eq_true,
        jsIncludes_iff]
      rw [includesId_iff] at hv
      constructor
      · rintro ⟨k, hk, h⟩
        exact Or.inr ⟨k, hk, h⟩
      · rintro (h | ⟨k, hk, h⟩)
        · exact absurd h hv
        · exact ⟨k, hk, h⟩
  · simp only [arduinoVendorIds, shippedScanConfig, List.mem_cons, List.mem_singleton,
      List.not_mem_nil, or_false]
    tauto
  · unfold findPortMatches
    by_cases hv : includesId cfg.vendorIds port.vendorId = true
    · simp only [hv, if_true, true_iff]
      exact Or.inl ((includesId_iff _ _).1 hv)
    · simp only [hv, if_false, Bool.false_eq_true]
      rw [includesId_iff] at hv
      by_cases hk : (cfg.portKeywords.any (fun keyword =>
          jsIncludes (toLowerCase (port.manufacturer.getD "")) keyword ||
          jsIncludes (toLowerCase port.path) keyword)) = true
      · simp only [hk, if_true, true_iff]
        simp only [List.any_eq_true, Bool.or_eq_true, jsIncludes_iff] at hk
        exact Or.inr (Or.inl hk)
      · simp only [hk, if_false, Bool.false_eq_true]
        simp only [List.any_eq_true, Bool.or_eq_true, jsIncludes_iff] at hk
        constructor
        · exact fun h => Or.inr (Or.inr h)
        · rintro (h | h | h)
          · exact absurd h hv
          · exact absurd h hk
          · exact h
  · unfold findPort
    induction ports with
    | nil => rfl
    | cons info rest ih =>
      by_cases hm : findPortMatches toLowerCase cfg info = true
      · simp [findPortIn, List.find?_cons, hm]
      · simp only [findPortIn, hm, List.find?_cons]
        simpa using ih

theorem presentParts_eq (port : PortInfo) :
    getDeviceDescription port =
      if (presentParts port).length > 0 then String.intercalate " | " (presentParts port)
      else port.path := by
  unfold getDeviceDescription presentParts
  by_cases h1 : truthy port.manufacturer = true <;>
    by_cases h2 : (truthy port.vendorId && truthy port.productId) = true <;>
    by_cases h3 : truthy port.serialNumber = true <;>
    simp [h1, h2, h3]

/-- C19: for every port, `getDeviceDescription` returns the parts of the
present fields among the manufacturer, `VID:<vendorId> PID:<productId>` (present
when both ids are) and `S/N:<serialNumber>`, in that order, joined by ` | `;
it falls back to the raw path exactly when none of the three is present, and
otherwise every present field has its part among those joined. -/
theorem getDeviceDescription_joins_present_parts (port : PortInfo) :
    getDeviceDescription port = descriptionBySpec port ∧
      (presentParts port = [] ↔
        truthy port.manufacturer = false ∧
        (truthy port.vendorId && truthy port.productId) = false ∧
        truthy port.serialNumber = false) ∧
      (presentParts port = [] → getDeviceDescription port = port.path) ∧
      (presentParts port ≠ [] →
        getDeviceDescription port = String.intercalate " | " (presentParts port)) ∧
      (truthy port.manufacturer = true → port.manufacturer.getD "" ∈ presentParts port) ∧
      ((truthy port.vendorId && truthy port.productId) = true →
        "VID:" ++ port.vendorId.getD "" ++ " PID:" ++ port.productId.getD "" ∈
          presentParts port) ∧
      (truthy port.serialNumber = true →
        "S/N:" ++ port.serialNumber.getD "" ∈ presentParts port) ∧
      (presentParts port).Sublist
        [port.manufacturer.getD "",
         "VID:" ++ port.vendorId.getD "" ++ " PID:" ++ port.productId.getD "",
         "S/N:" ++ port.serialNumber.getD ""] := by
  have hdesc : getDeviceDescription port = descriptionBySpec port := by
    rw [presentParts_eq, descriptionBySpec]
    by_cases hp : presentParts port = []
    · simp [hp]
    · have : (presentParts port).length > 0 := List.length_pos.2 hp
      simp [hp, this]
  refine ⟨hdesc, ?_, fun h => ?_, fun h => ?_, ?_, ?_, ?_, ?_⟩
  · unfold presentParts
    by_cases h1 : truthy port.manufacturer = true <;>
      by_cases h2 : (truthy port.vendorId && truthy port.productId) = true <;>
      by_cases h3 : truthy port.serialNumber = true <;>
      simp [h1, h2, h3]
  · rw [hdesc, descriptionBySpec, if_pos h]
  · rw [hdesc, descriptionBySpec, if_neg h]
  · intro h1
    simp [presentParts, h1]
  · intro h2
    simp only [presentParts, h2, if_true]
    simp
  · intro h3
    simp [presentParts, h3]
  · unfold presentParts
    by_cases h1 : truthy port.manufacturer = true <;>
      by_cases h2 : (truthy port.vendorId && truthy port.productId) = true <;>
      by_cases h3 : truthy port.serialNumber = true <;>
      simp [h1, h2, h3]

/-! ## Switching ports -/

theorem handleIncomingData_supervisor_fields (s : ArduinoManager) (data : String) (now : Int) :
    (handleIncomingData s data now).1.port = s.port ∧
      (handleIncomingData s data now).1.reconnectAttempts = s.reconnectAttempts ∧
      (handleIncomingData s data now).1.maxAttempts = s.maxAttempts ∧
      (handleIncomingData s data now).1.reconnectTimer = s.reconnectTimer ∧
      (handleIncomingData s data now).1.isConnecting = s.isConnecting := by
  by_cases hv : validateButton (jsTrim data) = true
  · by_cases hd : now - orZero (s.lastButtonTime.get? (jsTrim data)) < s.buttonDebounceMs
    · rw [handleIncomingData_debounced s data now hv hd]; exact ⟨rfl, rfl, rfl, rfl, rfl⟩
    · by_cases hs : (isSpamming s (jsTrim data) now).2 = true
      · rw [handleIncomingData_spam s data now hv hd hs]; exact ⟨rfl, rfl, rfl, rfl, rfl⟩
      · simp only [handleIncomingData, hv, hs]
        simp [hd, addToHistory, isSpamming]
  · rw [handleIncomingData_invalid s data now (by simpa using hv)]
    exact ⟨rfl, rfl, rfl, rfl, rfl⟩

theorem settled_constructor (cfg : Config) (now : Int) :
    Settled (ArduinoManager.constructor cfg now) := by
  simp [Settled, ArduinoManager.constructor]

theorem connectToPort_keeps_settled (s : ArduinoManager) (portPath : String)
    (outcome : OpenOutcome) (h : Settled s) :
    Settled (connectToPort s portPath outcome).1 := by
  obtain ⟨port, ra, ma, rt, ic, icl, D, lbt, hist, T, st, ls⟩ := s
  obtain ⟨hc, hw⟩ := h
  simp only at hc hw
  subst hc
  cases icl
  · by_cases hlt : ra < ma <;> rcases port with _ | ⟨path, _ | _, _ | _⟩ <;> cases outcome <;>
      simp [Settled, connectToPort, portIsOpen, closePort, onPortClose, handleDisconnect,
        markClosed, scheduleReconnect, hlt] at hw ⊢
  · simpa [Settled, connectToPort] using hw

theorem connect_keeps_settled (s : ArduinoManager) (found : Option String)
    (outcome : OpenOutcome) (h : Settled s) : Settled (connect s found outcome).1 := by
  unfold connect
  rcases found with _ | portPath
  · exact h
  · by_cases hp : portPath = ""
    · simpa [hp, scheduleReconnect] using h
    · simpa [hp] using connectToPort_keeps_settled s portPath outcome h

theorem applyEvent_keeps_settled (s : ArduinoManager) (e : Event) (h : Settled s) :
    Settled (applyEvent s e).1 := by
  cases e with
  | connectToPort portPath outcome => exact connectToPort_keeps_settled s portPath outcome h
  | connect found outcome => exact connect_keeps_settled s found outcome h
  | reconnect found outcome =>
    exact connect_keeps_settled { s with reconnectAttempts := 0 } found outcome h
  | close =>
    obtain ⟨port, ra, ma, rt, ic, icl, D, lbt, hist, T, st, ls⟩ := s
    obtain ⟨hc, hw⟩ := h
    simp only at hc hw
    subst hc
    rcases port with _ | ⟨path, _ | _, _ | _⟩ <;> rcases rt with _ | t <;>
      simp [Settled, applyEvent, close, closePort, onPortClose, handleDisconnect,
        markClosed] at hw ⊢
  | timer found outcome =>
    simp only [applyEvent, timerFires]
    split
    · exact connect_keeps_settled { s with reconnectTimer := some Timer.spent } found outcome h
    · exact h
  | portOpen portPath => exact h
  | portError message =>
    obtain ⟨hc, hw⟩ := h
    simp only [applyEvent, onPortError, handleDisconnect, scheduleReconnect, Settled]
    split_ifs <;> exact ⟨hc, hw⟩
  | portClose current =>
    obtain ⟨port, ra, ma, rt, ic, icl, D, lbt, hist, T, st, ls⟩ := s
    obtain ⟨hc, hw⟩ := h
    simp only at hc hw
    subst hc
    cases current <;> cases icl <;> rcases port with _ | ⟨path, _ | _, _ | _⟩ <;>
      simp [Settled, applyEvent, onPortClose, handleDisconnect, markClosed,
        scheduleReconnect] at hw ⊢ <;>
      by_cases hlt : ra < ma <;> simp [hlt]
  | data line now =>
    obtain ⟨hp, -, -, -, hic⟩ := handleIncomingData_supervisor_fields s line now
    simp only [applyEvent, Settled]
    rw [hp, hic]
    exact h
  | resetStats now => exact h

theorem run_keeps_settled (evs : List Event) (s : ArduinoManager) (h : Settled s) :
    Settled (run s evs).1 := by
  induction evs generalizing s with
  | nil => simpa [run] using h
  | cons e rest ih => simpa [run] using ih _ (applyEvent_keeps_settled s e h)

theorem connectToPort_teardown (s : ArduinoManager) (p : Port) (newPath : String)
    (outcome : OpenOutcome) (hport : s.port = some p) (hopen : p.isOpen = true)
    (hwired : p.wired = true) (hc : s.isConnecting = false) (hcl : s.isClosing = false)
    (hlt : s.reconnectAttempts < s.maxAttempts) :
    closePort { s with isConnecting := true } =
        handleDisconnect (markClosed { s with isConnecting := true }) ∧
      (handleDisconnect (markClosed { s with isConnecting := true })).2 =
        [Out.emit "disconnected" none,
         Out.status (reconnectingStatus (s.reconnectAttempts + 1) s.maxAttempts)] ∧
      (connectToPort s newPath outcome).1.reconnectAttempts = s.reconnectAttempts + 1 ∧
      (connectToPort s newPath outcome).1.reconnectTimer = some Timer.pending ∧
      (connectToPort s newPath outcome).1.isConnecting = false ∧
      (connectToPort s newPath outcome).2.2 =
        [Out.emit "disconnected" none,
         Out.status (reconnectingStatus (s.reconnectAttempts + 1) s.maxAttempts)] ++
        (match outcome with
          | OpenOutcome.opened => []
          | OpenOutcome.constructFails message => [Out.status (errorStatus message)]
          | OpenOutcome.openFails message => [Out.status (errorStatus message)]) ∧
      (outcome = OpenOutcome.opened →
        (connectToPort s newPath outcome).2.1 = true ∧
        (connectToPort s newPath outcome).1.port =
          some { path := newPath, isOpen := true, wired := true }) := by
  obtain ⟨port, ra, ma, rt, ic, icl, D, lbt, hist, T, st, ls⟩ := s
  obtain ⟨path, isOpen, wired⟩ := p
  simp only at hport hopen hwired hc hcl hlt
  subst hport hopen hwired hc hcl
  cases outcome <;>
    simp [connectToPort, portIsOpen, closePort, onPortClose, handleDisconnect, markClosed,
      scheduleReconnect, hlt]

/-- C21: in a state reached from the constructor in which a port is open (so
one connected by an earlier `connectToPort`, with its handlers installed) and
`isClosing` is false, `connectToPort(newPath)` tears the old port down by
`closePort`, whose `close` notification runs `handleDisconnect` with only
`isConnecting` set. With `reconnectAttempts < maxAttempts` the call therefore
increments `reconnectAttempts` by one, emits `disconnected` with the
reconnecting status, and leaves a reconnect timer due, whatever the new open
does; when the new port opens, the call returns `true` all the same, with the
new port open. -/
theorem switching_ports_runs_disconnect (cfg : Config) (t0 : Int) (evs : List Event)
    (newPath : String) (outcome : OpenOutcome)
    (hopen : portIsOpen (run (ArduinoManager.constructor cfg t0) evs).1 = true)
    (hcl : (run (ArduinoManager.constructor cfg t0) evs).1.isClosing = false)
    (hlt : (run (ArduinoManager.constructor cfg t0) evs).1.reconnectAttempts <
      (run (ArduinoManager.constructor cfg t0) evs).1.maxAttempts) :
    closePort { (run (ArduinoManager.constructor cfg t0) evs).1 with isConnecting := true } =
        handleDisconnect
          (markClosed { (run (ArduinoManager.constructor cfg t0) evs).1 with
            isConnecting := true }) ∧
      (connectToPort (run (ArduinoManager.constructor cfg t0) evs).1 newPath
          outcome).1.reconnectAttempts =
        (run (ArduinoManager.constructor cfg t0) evs).1.reconnectAttempts + 1 ∧
      Out.emit "disconnected" none ∈
        (connectToPort (run (ArduinoManager.constructor cfg t0) evs).1 newPath outcome).2.2 ∧
      Out.status (reconnectingStatus
          ((run (ArduinoManager.constructor cfg t0) evs).1.reconnectAttempts + 1)
          (run (ArduinoManager.constructor cfg t0) evs).1.maxAttempts) ∈
        (connectToPort (run (ArduinoManager.constructor cfg t0) evs).1 newPath outcome).2.2 ∧
      timerPending
        (connectToPort (run (ArduinoManager.constructor cfg t0) evs).1 newPath outcome).1
          = true ∧
      (outcome = OpenOutcome.opened →
        (connectToPort (run (ArduinoManager.constructor cfg t0) evs).1 newPath
          outcome).2.1 = true ∧
        isConnected (connectToPort (run (ArduinoManager.constructor cfg t0) evs).1 newPath
          outcome).1 = true) := by
  have hs := run_keeps_settled evs _ (settled_constructor cfg t0)
  generalize (run (ArduinoManager.constructor cfg t0) evs).1 = s at hs hopen hcl hlt ⊢
  cases hp : s.port with
  | none => simp [portIsOpen, hp] at hopen
  | some p =>
    have hpo : p.isOpen = true := by simpa [portIsOpen, hp] using hopen
    obtain ⟨h1, -, h3, h4, -, h6, h7⟩ :=
      connectToPort_teardown s p newPath outcome hp hpo (hs.2 p hp hpo) hs.1 hcl hlt
    refine ⟨h1, h3, ?_, ?_, ?_, fun ho => ?_⟩
    · rw [h6]; simp
    · rw [h6]; simp
    · simp [timerPending, h4]
    · obtain ⟨h8, h9⟩ := h7 ho
      exact ⟨h8, by simp [isConnected, portIsOpen, h9]⟩

/-- C21 on the connected manager of the shipped configuration: `COM3` is
open, `connectToPort` to `COM4` opens the new port and returns `true`. -/
theorem switching_ports_runs_disconnect_witness :
    (connectToPort (run (ArduinoManager.constructor shippedConfig sampleNow)
        [Event.connectToPort "COM3" OpenOutcome.opened]).1 "COM4"
        OpenOutcome.opened).1.reconnectAttempts = 0 + 1 ∧
      (connectToPort (run (ArduinoManager.constructor shippedConfig sampleNow)
        [Event.connectToPort "COM3" OpenOutcome.opened]).1 "COM4" OpenOutcome.opened).2.2 =
        [Out.emit "disconnected" none, Out.status (reconnectingStatus 1 5)] ∧
      timerPending (connectToPort (run (ArduinoManager.constructor shippedConfig sampleNow)
        [Event.connectToPort "COM3" OpenOutcome.opened]).1 "COM4" OpenOutcome.opened).1
          = true ∧
      (connectToPort (run (ArduinoManager.constructor shippedConfig sampleNow)
        [Event.connectToPort "COM3" OpenOutcome.opened]).1 "COM4" OpenOutcome.opened).2.1
          = true :=
  have h := switching_ports_runs_disconnect shippedConfig sampleNow
    [Event.connectToPort "COM3" OpenOutcome.opened] "COM4" OpenOutcome.opened
    (by decide) (by decide) (by decide)
  ⟨h.2.1, by decide, h.2.2.2.2.1, (h.2.2.2.2.2 rfl).1⟩

/-! ## The bound of the attempt counter -/

theorem exhausted_ne_reconnecting (n m : Int) : exhaustedStatus ≠ reconnectingStatus n m := by
  intro h
  have h2 := congrArg (fun t => t.data.get? 0) h
  simp [exhaustedStatus, reconnectingStatus, String.data_append] at h2

theorem error_ne_reconnecting (message : String) (n m : Int) :
    errorStatus message ≠ reconnectingStatus n m := by
  intro h
  have h2 := congrArg (fun t => t.data.get? 0) h
  simp [errorStatus, reconnectingStatus, String.data_append] at h2

theorem notFound_ne_reconnecting (n m : Int) : "Не найдена" ≠ reconnectingStatus n m := by
  intro h
  have h2 := congrArg (fun t => t.data.get? 0) h
  simp [reconnectingStatus, String.data_append] at h2

theorem spam_ne_reconnecting (button : String) (n m : Int) :
    spamStatus button ≠ reconnectingStatus n m := by
  intro h
  have h2 := congrArg (fun t => t.data.get? 0) h
  simp [spamStatus, reconnectingStatus, String.data_append] at h2

theorem boundedOut_of_ne (maxAttempts : Int) (o : Out)
    (h : ∀ n m, o ≠ Out.status (reconnectingStatus n m)) : BoundedOut maxAttempts o :=
  fun n m ho => absurd ho (h n m)

theorem boundedOut_emit (maxAttempts : Int) (event : String) (arg : Option String) :
    BoundedOut maxAttempts (Out.emit event arg) :=
  boundedOut_of_ne _ _ (fun _ _ h => Out.noConfusion h)

theorem boundedOut_data (maxAttempts : Int) (button : String) :
    BoundedOut maxAttempts (Out.data button) :=
  boundedOut_of_ne _ _ (fun _ _ h => Out.noConfusion h)

theorem boundedOut_status_of_ne (maxAttempts : Int) (text : String)
    (h : ∀ n m, text ≠ reconnectingStatus n m) : BoundedOut maxAttempts (Out.status text) :=
  boundedOut_of_ne _ _ (fun n m ho => h n m (Out.status.inj ho))

theorem stepBounded_same (s s' : ArduinoManager) (hb : AttemptsBounded s)
    (ha : s'.reconnectAttempts = s.reconnectAttempts) (hm : s'.maxAttempts = s.maxAttempts) :
    StepBounded s (s', []) :=
  ⟨by simpa [AttemptsBounded, ha, hm] using hb, hm, by simp⟩

theorem handleDisconnect_bounded (s : ArduinoManager) (hb : AttemptsBounded s) :
    StepBounded s (handleDisconnect s) := by
  unfold handleDisconnect
  split_ifs with hcl hlt
  · exact stepBounded_same s s hb rfl rfl
  · refine ⟨⟨?_, ?_⟩, rfl, ?_⟩
    · simp only [scheduleReconnect]; have := hb.1; omega
    · simp only [scheduleReconnect]; omega
    · intro o ho
      simp only [List.mem_cons, List.mem_singleton, List.not_mem_nil, or_false] at ho
      rcases ho with rfl | rfl
      · exact boundedOut_emit _ _ _
      · intro _ _ _
        exact ⟨s.reconnectAttempts + 1, by have := hb.1; omega, by omega, rfl⟩
  · refine ⟨hb, rfl, ?_⟩
    intro o ho
    simp only [List.mem_cons, List.mem_singleton, List.not_mem_nil, or_false] at ho
    rcases ho with rfl | rfl | rfl
    · exact boundedOut_emit _ _ _
    · exact boundedOut_status_of_ne _ _ exhausted_ne_reconnecting
    · exact boundedOut_emit _ _ _

theorem stepBounded_extend (s : ArduinoManager) (r : ArduinoManager × List Out)
    (h : StepBounded s r) (s' : ArduinoManager) (extra : List Out)
    (ha : s'.reconnectAttempts = r.1.reconnectAttempts) (hm : s'.maxAttempts = r.1.maxAttempts)
    (hextra : ∀ o ∈ extra, BoundedOut s.maxAttempts o) :
    StepBounded s (s', r.2 ++ extra) := by
  obtain ⟨hb, hmax, hout⟩ := h
  refine ⟨by simpa [AttemptsBounded, ha, hm] using hb, hm.trans hmax, fun o ho => ?_⟩
  rcases List.mem_append.1 ho with ho | ho
  · exact hout o ho
  · exact hextra o ho

theorem stepBounded_trans (s : ArduinoManager) (r r2 : ArduinoManager × List Out)
    (h : StepBounded s r) (h2 : StepBounded r.1 r2) :
    StepBounded s (r2.1, r.2 ++ r2.2) := by
  obtain ⟨-, hmax, hout⟩ := h
  obtain ⟨hb2, hmax2, hout2⟩ := h2
  refine ⟨hb2, hmax2.trans hmax, fun o ho => ?_⟩
  rcases List.mem_append.1 ho with ho | ho
  · exact hout o ho
  · rw [← hmax]; exact hout2 o ho

theorem closePort_bounded (s : ArduinoManager) (hb : AttemptsBounded s) :
    StepBounded s (closePort s) := by
  unfold closePort
  split
  · exact stepBounded_same s s hb rfl rfl
  · split_ifs
    · exact stepBounded_same s s hb rfl rfl
    · exact handleDisconnect_bounded (markClosed s) hb
    · exact stepBounded_same s (markClosed s) hb rfl rfl

theorem connectToPort_bounded (s : ArduinoManager) (portPath : String)
    (outcome : OpenOutcome) (hb : AttemptsBounded s) :
    StepBounded s ((connectToPort s portPath outcome).1,
      (connectToPort s portPath outcome).2.2) := by
  by_cases hguard : (s.isConnecting || s.isClosing) = true
  · unfold connectToPort
    rw [if_pos hguard]
    exact stepBounded_same s s hb rfl rfl
  · have hc : StepBounded s
        (if portIsOpen { s with isConnecting := true } = true then
          closePort { s with isConnecting := true }
        else ({ s with isConnecting := true }, [])) := by
      split_ifs
      · exact closePort_bounded { s with isConnecting := true } hb
      · exact stepBounded_same s _ hb rfl rfl
    have herr : ∀ message : String,
        ∀ o ∈ [Out.status (errorStatus message)], BoundedOut s.maxAttempts o := by
      intro message o ho
      simp only [List.mem_singleton] at ho
      subst ho
      exact boundedOut_status_of_ne _ _ (error_ne_reconnecting message)
    unfold connectToPort
    rw [if_neg hguard]
    cases outcome with
    | constructFails message =>
      exact stepBounded_extend s _ hc _ [Out.status (errorStatus message)] rfl rfl
        (herr message)
    | openFails message =>
      exact stepBounded_extend s _ hc _ [Out.status (errorStatus message)] rfl rfl
        (herr message)
    | opened =>
      have := stepBounded_extend s _ hc
        { (if portIsOpen { s with isConnecting := true } = true then
            closePort { s with isConnecting := true }
          else ({ s with isConnecting := true }, [])).1 with
          port := some { path := portPath, isOpen := true, wired := true }
          isConnecting := false } [] rfl rfl (by simp)
      rw [List.append_nil] at this
      exact this

theorem connect_bounded (s : ArduinoManager) (found : Option String) (outcome : OpenOutcome)
    (hb : AttemptsBounded s) : StepBounded s (connect s found outcome) := by
  have hnf : StepBounded s (scheduleReconnect s, [Out.status "Не найдена"]) :=
    ⟨hb, rfl, fun o ho => by
      simp only [List.mem_singleton] at ho
      subst ho
      exact boundedOut_status_of_ne _ _ notFound_ne_reconnecting⟩
  unfold connect
  rcases found with _ | portPath
  · exact hnf
  · by_cases hp : portPath = ""
    · simpa [hp] using hnf
    · simpa [hp] using connectToPort_bounded s portPath outcome hb

theorem handleIncomingData_bounded (s : ArduinoManager) (data : String) (now : Int)
    (hb : AttemptsBounded s) : StepBounded s (handleIncomingData s data now) := by
  obtain ⟨-, ha, hm, -, -⟩ := handleIncomingData_supervisor_fields s data now
  refine ⟨by simpa [AttemptsBounded, ha, hm] using hb, hm, ?_⟩
  by_cases hv : validateButton (jsTrim data) = true
  · by_cases hd : now - orZero (s.lastButtonTime.get? (jsTrim data)) < s.buttonDebounceMs
    · rw [handleIncomingData_debounced s data now hv hd]; simp
    · by_cases hs : (isSpamming s (jsTrim data) now).2 = true
      · rw [handleIncomingData_spam s data now hv hd hs]
        intro o ho
        simp only [List.mem_singleton] at ho
        subst ho
        exact boundedOut_status_of_ne _ _ (spam_ne_reconnecting _)
      · rw [(handleIncomingData_accept s data now hv hd (by simpa using hs)).1]
        intro o ho
        simp only [List.mem_cons, List.mem_singleton, List.not_mem_nil, or_false] at ho
        rcases ho with rfl | rfl
        · exact boundedOut_data _ _
        · exact boundedOut_emit _ _ _
  · rw [handleIncomingData_invalid s data now (by simpa using hv)]; simp

theorem applyEvent_bounded (s : ArduinoManager) (e : Event) (hb : AttemptsBounded s) :
    StepBounded s (applyEvent s e) := by
  have hzero : AttemptsBounded { s with reconnectAttempts := 0 } :=
    ⟨le_refl 0, le_trans hb.1 hb.2⟩
  cases e with
  | connectToPort portPath outcome => exact connectToPort_bounded s portPath outcome hb
  | connect found outcome => exact connect_bounded s found outcome hb
  | reconnect found outcome =>
    exact connect_bounded { s with reconnectAttempts := 0 } found outcome hzero
  | close =>
    have hc : StepBounded s
        (closePort
          (if ({ s with isClosing := true } : ArduinoManager).reconnectTimer.isSome = true then
            { s with isClosing := true, reconnectTimer := none }
          else { s with isClosing := true })) := by
      split_ifs
      · exact closePort_bounded { s with isClosing := true, reconnectTimer := none } hb
      · exact closePort_bounded { s with isClosing := true } hb
    have := stepBounded_extend s _ hc
      { (closePort
          (if ({ s with isClosing := true } : ArduinoManager).reconnectTimer.isSome = true then
            { s with isClosing := true, reconnectTimer := none }
          else { s with isClosing := true })).1 with listeners := [] } [] rfl rfl (by simp)
    rw [List.append_nil] at this
    exact this
  | timer found outcome =>
    simp only [applyEvent, timerFires]
    split
    · exact connect_bounded { s with reconnectTimer := some Timer.spent } found outcome hb
    · exact stepBounded_same s s hb rfl rfl
  | portOpen portPath =>
    refine ⟨hzero, rfl, fun o ho => ?_⟩
    simp only [applyEvent, onPortOpen, List.mem_cons, List.mem_singleton, List.not_mem_nil,
      or_false] at ho
    rcases ho with rfl | rfl
    · exact boundedOut_status_of_ne _ _ (connected_ne_reconnecting portPath)
    · exact boundedOut_emit _ _ _
  | portError message =>
    obtain ⟨h1, h2, h3⟩ := handleDisconnect_bounded s hb
    refine ⟨h1, h2, fun o ho => ?_⟩
    simp only [applyEvent, onPortError, List.mem_cons] at ho
    rcases ho with rfl | ho
    · exact boundedOut_status_of_ne _ _ (error_ne_reconnecting message)
    · exact h3 o ho
  | portClose current =>
    cases current
    · exact handleDisconnect_bounded s hb
    · exact handleDisconnect_bounded (markClosed s) hb
  | data line now => exact handleIncomingData_bounded s line now hb
  | resetStats now => exact stepBounded_same s _ hb rfl rfl

theorem run_bounded (evs : List Event) (s : ArduinoManager) (hb : AttemptsBounded s) :
    StepBounded s (run s evs) := by
  induction evs generalizing s with
  | nil => exact stepBounded_same s s hb rfl rfl
  | cons e rest ih =>
    have h1 := applyEvent_bounded s e hb
    exact stepBounded_trans s _ _ h1 (ih _ h1.1)

/-- C22: with `maxAttempts ≥ 0`, in every state reached from the constructor
by any sequence of events (`connectToPort`, `connect`, `reconnect`, `close`,
the timer, `open`, `error` and `close` notifications, lines and resets),
`0 ≤ reconnectAttempts ≤ maxAttempts`, and `maxAttempts` is the configured
value; every reconnecting status among the outputs is the status of an
attempt number `k` with `1 ≤ k ≤ maxAttempts`, out of `maxAttempts`; and a
call of `handleDisconnect` in such a state sends nothing, or `disconnected`
with the reconnecting status of `reconnectAttempts + 1`, which is between 1
and `maxAttempts`, or the exhausted report. -/
theorem attempts_stay_bounded (cfg : Config) (t0 : Int) (evs : List Event)
    (hmax : 0 ≤ cfg.maxReconnectAttempts) :
    0 ≤ (run (ArduinoManager.constructor cfg t0) evs).1.reconnectAttempts ∧
      (run (ArduinoManager.constructor cfg t0) evs).1.reconnectAttempts ≤
        (run (ArduinoManager.constructor cfg t0) evs).1.maxAttempts ∧
      (run (ArduinoManager.constructor cfg t0) evs).1.maxAttempts =
        cfg.maxReconnectAttempts ∧
      (∀ o ∈ (run (ArduinoManager.constructor cfg t0) evs).2, ∀ n m,
        o = Out.status (reconnectingStatus n m) →
        ∃ k, 1 ≤ k ∧ k ≤ cfg.maxReconnectAttempts ∧
          o = Out.status (reconnectingStatus k cfg.maxReconnectAttempts)) ∧
      ((handleDisconnect (run (ArduinoManager.constructor cfg t0) evs).1).2 = [] ∨
        ((handleDisconnect (run (ArduinoManager.constructor cfg t0) evs).1).2 =
            [Out.emit "disconnected" none,
             Out.status (reconnectingStatus
              ((run (ArduinoManager.constructor cfg t0) evs).1.reconnectAttempts + 1)
              cfg.maxReconnectAttempts)] ∧
          1 ≤ (run (ArduinoManager.constructor cfg t0) evs).1.reconnectAttempts + 1 ∧
          (run (ArduinoManager.constructor cfg t0) evs).1.reconnectAttempts + 1 ≤
            cfg.maxReconnectAttempts) ∨
        (handleDisconnect (run (ArduinoManager.constructor cfg t0) evs).1).2 =
          [Out.emit "disconnected" none, Out.status exhaustedStatus,
           Out.emit "max-reconnect-reached" none]) := by
  have h0 : AttemptsBounded (ArduinoManager.constructor cfg t0) :=
    ⟨le_refl 0, hmax⟩
  obtain ⟨hb, hm, hout⟩ := run_bounded evs _ h0
  have hm' : (run (ArduinoManager.constructor cfg t0) evs).1.maxAttempts =
      cfg.maxReconnectAttempts := hm
  refine ⟨hb.1, hb.2, hm', fun o ho n m h => hout o ho n m h, ?_⟩
  unfold handleDisconnect
  split_ifs with hcl hlt
  · exact Or.inl rfl
  · refine Or.inr (Or.inl ⟨by rw [← hm'], ?_, ?_⟩)
    · have := hb.1; omega
    · rw [← hm']; omega
  · exact Or.inr (Or.inr rfl)

/-- C22 on the shipped configuration (`maxAttempts = 5`): five losses, each
followed by a successful reopen, and a sixth loss. -/
theorem attempts_stay_bounded_witness :
    0 ≤ (run (ArduinoManager.constructor shippedConfig sampleNow)
        (Event.connectToPort "COM3" OpenOutcome.opened ::
          (List.replicate 5 lossAndReopen).flatten ++
          [Event.portClose true])).1.reconnectAttempts ∧
      (run (ArduinoManager.constructor shippedConfig sampleNow)
        (Event.connectToPort "COM3" OpenOutcome.opened ::
          (List.replicate 5 lossAndReopen).flatten ++
          [Event.portClose true])).1.reconnectAttempts ≤
        (run (ArduinoManager.constructor shippedConfig sampleNow)
          (Event.connectToPort "COM3" OpenOutcome.opened ::
            (List.replicate 5 lossAndReopen).flatten ++
            [Event.portClose true])).1.maxAttempts ∧
      (run (ArduinoManager.constructor shippedConfig sampleNow)
        (Event.connectToPort "COM3" OpenOutcome.opened ::
          (List.replicate 5 lossAndReopen).flatten ++
          [Event.portClose true])).1.reconnectAttempts = 5 :=
  have h := attempts_stay_bounded shippedConfig sampleNow
    (Event.connectToPort "COM3" OpenOutcome.opened ::
      (List.replicate 5 lossAndReopen).flatten ++ [Event.portClose true]) (by decide)
  ⟨h.1, h.2.1, by decide⟩

end ArduinoPlayer
